import Mathlib

/-!
Verification of the brand-sponsorship ROI backend (`backend/app.py`).

This file gives a shallow embedding, in Lean, of the data model and the
pure/algorithmic core of the Flask backend: the brand-name validity filter,
the placement categorizer, the Pydantic-style appearance validation with
best-effort salvage, the per-brand aggregation of both the asynchronous
job pipeline (`analyze_video_with_progress`) and the synchronous endpoint
(`analyze_video`), the external AI scoring interface
(`calculate_ai_contextual_score` / `estimate_social_engagement`), the
temporal merger (`combine_video_analyses`), the parallel orchestrator's
result collection (`analyze_multiple_videos_with_progress`), and the job
status registry (`AnalysisStatus`).

Numbers: Python floats are embedded as `ℚ`; Python ints as `ℕ`/`ℤ`.
Python's `round(x, n)` (round-half-to-even on the scaled value) is
embedded exactly on `ℚ`.  Python dicts holding optional keys are embedded
as structures with `Option` fields (`none` = key absent).  Timestamps
(`created_at` / `updated_at`, `analysis_timestamp`) carry no logic and are
omitted.
-/

namespace BrandROI

/-! ### Python-like string primitives

The source manipulates `str` values with `.strip()`, `.lower()`,
`.split()`, `in` (substring test) and `.endswith`.  These are embedded on
the character list underlying `String` so that they evaluate by kernel
reduction.  Only ASCII behaviour is relevant to the source's literals. -/

/-- Characters Python's `str.strip()` / `str.split()` treat as whitespace
(ASCII fragment). -/
def isPySpace (c : Char) : Bool :=
  c == ' ' || c == '\t' || c == '\n' || c == '\r' || c == '\x0b' || c == '\x0c'

/-- Python `str.strip()`. -/
def pyStrip (s : String) : String :=
  ⟨((s.data.dropWhile isPySpace).reverse.dropWhile isPySpace).reverse⟩

/-- Python `str.lower()` (ASCII). -/
def pyLower (s : String) : String :=
  ⟨s.data.map Char.toLower⟩

/-- Helper for `pySplit`: accumulates the current word (reversed). -/
def pySplitAux : List Char → List Char → List String
  | [], cur => if cur.isEmpty then [] else [⟨cur.reverse⟩]
  | c :: rest, cur =>
    if isPySpace c then
      if cur.isEmpty then pySplitAux rest [] else (⟨cur.reverse⟩ : String) :: pySplitAux rest []
    else pySplitAux rest (c :: cur)

/-- Python `str.split()` with no argument: split on whitespace runs,
discarding empty fields. -/
def pySplit (s : String) : List String :=
  pySplitAux s.data []

/-- Whether `needle` occurs as a contiguous substring of `hay`
(Python's `needle in hay` on strings). -/
def strContains (hay needle : String) : Bool :=
  hay.data.tails.any (fun t => needle.data.isPrefixOf t)

/-- Python `str.endswith`. -/
def strEndsWith (s suffixStr : String) : Bool :=
  suffixStr.data.isSuffixOf s.data

/-- Python `str[:n]` (truncation used for display filenames). -/
def strTake (s : String) (n : ℕ) : String :=
  ⟨s.data.take n⟩

/-! ### Python-like numeric primitives -/

/-- Round a rational to the nearest integer, ties to even
(Python's `round` on a value representable exactly). -/
def pyRoundInt (q : ℚ) : ℤ :=
  let f : ℤ := ⌊q⌋
  let r : ℚ := q - f
  if r < 1/2 then f
  else if 1/2 < r then f + 1
  else if f % 2 = 0 then f else f + 1

/-- Python `round(q, ndigits)`. -/
def pyRound (q : ℚ) (ndigits : ℕ) : ℚ :=
  (pyRoundInt (q * 10 ^ ndigits) : ℚ) / 10 ^ ndigits

/-- Python `int(q)`: truncation toward zero. -/
def pyTrunc (q : ℚ) : ℤ :=
  if 0 ≤ q then ⌊q⌋ else -⌊-q⌋

/-- Python `sum(l)/len(l) if l else 0`, the mean with 0 for an empty
list, as used throughout the merge's recomputed averages. -/
def listMean (l : List ℚ) : ℚ :=
  if l.length = 0 then 0 else l.sum / l.length

/-! ### BrandClassifier (`is_valid_brand`, `categorize_sponsorship_placement`) -/

/-- The `non_brand_keywords` list from `is_valid_brand`. -/
def non_brand_keywords : List String :=
  ["high school", "college", "university", "team", "football", "basketball",
   "baseball", "soccer", "athletics", "sports", "club", "academy", "institute",
   "school", "district", "county", "city", "state", "national", "tournament",
   "championship", "league", "division", "conference", "guy", "john", "mike",
   "david", "robert", "james", "william", "richard", "charles", "joe"]

/-- The `educational_suffixes` list from `is_valid_brand`. -/
def educational_suffixes : List String :=
  ["College", "University", "School", "Academy", "Institute"]

/-- The personal-name fragment list used by the two-word capitalized check. -/
def person_name_words : List String :=
  ["guy", "john", "mike", "david", "robert"]

/-- The single-word generic place names rejected by `is_valid_brand`. -/
def generic_place_names : List String :=
  ["berkeley", "cambridge", "oxford", "stanford"]

/-- The `known_brands` whitelist from `is_valid_brand`. -/
def known_brands : List String :=
  ["ford", "nike", "adidas", "coca-cola", "pepsi", "honda", "toyota",
   "microsoft", "apple", "google", "amazon", "walmart", "target",
   "hon-dah", "hondah"]

/-- First character is uppercase (`word[0].isupper()`; `pySplit` never
produces an empty word, the `[]` case is unreachable). -/
def headIsUpper : String → Bool
  | ⟨[]⟩ => false
  | ⟨c :: _⟩ => c.isUpper

/-- The filter `is_valid_brand` (app.py:139-192): heuristic filter deciding whether a
detected name is a commercial brand.  The checks run in source order:
person-name pattern, non-brand keyword substrings, educational suffixes,
generic single-word places, the "Outdoor Sports" special case, the
known-brand whitelist, then default `True`. -/
def is_valid_brand (brand_name : String) : Bool :=
  let bn := pyStrip brand_name
  let words := pySplit bn
  let brand_lower := pyLower bn
  let personReject :=
    match words with
    | [w1, w2] =>
      headIsUpper w1 && headIsUpper w2 &&
        (words.any fun w => person_name_words.contains (pyLower w))
    | _ => false
  if personReject then false
  else if non_brand_keywords.any (fun k => strContains brand_lower k) then false
  else if educational_suffixes.any (fun suf => strEndsWith bn suf) then false
  else if words.length = 1 && generic_place_names.contains brand_lower then false
  else if strContains brand_lower "outdoor sport" &&
          !(["school", "college", "university"].any fun w => strContains brand_lower w) then true
  else if known_brands.any (fun kb => strContains brand_lower kb) then true
  else true

/-- Placement types classified as ad placements (app.py:198-200). -/
def ad_placement_types : List String :=
  ["digital_overlay", "ctv_ad", "overlay_ad", "squeeze_ad", "commercial"]

/-- Placement types classified as in-game placements (app.py:202-204). -/
def in_game_placement_types : List String :=
  ["logo", "jersey_sponsor", "stadium_signage", "product_placement", "audio_mention"]

/-- The classifier `categorize_sponsorship_placement` (app.py:194-219). -/
def categorize_sponsorship_placement (placement_type context : String) : String :=
  if ad_placement_types.contains placement_type then "ad_placement"
  else if in_game_placement_types.contains placement_type then "in_game_placement"
  else if context ∈ (["commercial"] : List String) then "ad_placement"
  else "in_game_placement"

/-! ### Data model -/

/-- A raw detection record as received from the external vision service
(a JSON object): every key may be absent (`none`).  The Pydantic model
`BrandAppearance` validates these records; both aggregation call sites
read them with `.get` defaults.  `timeline` is the `[start, end]` list of
seconds; a `some []` models a present-but-empty (falsy) value. -/
structure Appearance where
  brand : Option String := none
  timeline : Option (List ℚ) := none
  type : Option String := none
  sponsorship_category : Option String := none
  location : Option (List ℚ) := none
  prominence : Option String := none
  context : Option String := none
  description : Option String := none
  sentiment_context : Option String := none
  viewer_attention : Option String := none
deriving Repr, DecidableEq

/-- Per-category slice of the `sponsorship_breakdown` payload. -/
structure CatBreakdown where
  count : ℕ
  exposure_time : ℚ
  percentage_of_total : ℚ
deriving Repr, DecidableEq

/-- The two-category `sponsorship_breakdown` payload. -/
structure Breakdown where
  ad_placements : CatBreakdown
  in_game_placements : CatBreakdown
deriving Repr, DecidableEq

/-- A per-video brand metrics record, as built by
`analyze_video_with_progress` (app.py:1417-1450) and consumed by
`combine_video_analyses`.  The opaque `ai_insights` payload carries no
logic read by the merge and is omitted. -/
structure BrandMetric where
  brand : String
  total_exposure_time : ℚ
  total_appearances : ℕ
  contextual_value_score : ℚ
  high_impact_moments : ℕ
  sentiment_score : ℚ
  sentiment_label : String
  avg_prominence : ℚ
  avg_viewer_attention : ℚ
  contexts : List String
  estimated_social_mentions : ℤ
  appearances : List Appearance
  sponsorship_breakdown : Breakdown
  ad_placements : List Appearance
  in_game_placements : List Appearance
deriving Repr, DecidableEq

/-- The per-video summary block (app.py:1465-1472). -/
structure Summary where
  event_title : String
  video_duration_minutes : ℚ
  total_brands_detected : ℕ
  total_brand_appearances : ℕ
  brands_analyzed : List String
deriving Repr, DecidableEq

/-- One successful single-video analysis result — the `data` payload of a
completed single-video job (app.py:1484-1490), and the element type of
`individual_analyses` in the merge. -/
structure Analysis where
  summary : Summary
  brand_metrics : List BrandMetric
  raw_detections : List Appearance
  video_id : String
deriving Repr, DecidableEq

/-! ### AppearanceValidator (Pydantic `BrandAppearance`, app.py:101-117)
and the synchronous endpoint's salvage logic (app.py:2163-2178) -/

/-- Allowed `type` literals of the `BrandAppearance` model. -/
def allowed_types : List String :=
  ["logo", "jersey_sponsor", "stadium_signage", "digital_overlay", "audio_mention",
   "product_placement", "commercial", "ctv_ad", "overlay_ad", "squeeze_ad"]

/-- Allowed `sponsorship_category` literals. -/
def allowed_categories : List String := ["ad_placement", "in_game_placement"]

/-- Allowed `prominence` literals. -/
def allowed_prominence : List String := ["primary", "secondary", "background"]

/-- Allowed `context` literals. -/
def allowed_contexts : List String :=
  ["game_action", "replay", "celebration", "interview", "crowd_shot",
   "commercial", "transition"]

/-- Allowed `sentiment_context` literals. -/
def allowed_sentiments : List String := ["positive", "neutral", "negative"]

/-- Allowed `viewer_attention` literals. -/
def allowed_attention : List String := ["high", "medium", "low"]

/-- Pydantic validation of a raw record against `BrandAppearance`
(app.py:101-117): all fields but `location` required, `timeline` exactly
two values with `end > start`, `brand` non-empty, `description` at least
10 characters, the `Literal` fields restricted to their enumerations,
`location` absent or exactly four values.  On success `model_dump`
returns the same field set, so validation yields the record itself. -/
def validateBrandAppearance (a : Appearance) : Option Appearance :=
  match a.brand, a.timeline, a.type, a.sponsorship_category, a.prominence,
        a.context, a.description, a.sentiment_context, a.viewer_attention with
  | some b, some tl, some ty, some cat, some pr, some cx, some d, some sc, some va =>
    let timelineOk := match tl with
      | [t0, t1] => decide (t0 < t1)
      | _ => false
    let locationOk := match a.location with
      | none => true
      | some loc => loc.length == 4
    if b.length ≥ 1 && timelineOk && allowed_types.contains ty &&
       allowed_categories.contains cat && allowed_prominence.contains pr &&
       allowed_contexts.contains cx && d.length ≥ 10 &&
       allowed_sentiments.contains sc && allowed_attention.contains va &&
       locationOk
    then some a else none
  | _, _, _, _, _, _, _, _, _ => none

/-- The synchronous endpoint's validation pass (app.py:2168-2178): each
raw record is validated; on failure the record is salvaged unchanged when
it still has `brand` and `timeline` keys, and dropped otherwise. -/
def processRawDetections (raws : List Appearance) : List Appearance :=
  raws.foldl (fun brand_data app =>
    match validateBrandAppearance app with
    | some v => brand_data ++ [v]
    | none =>
      if app.brand.isSome && app.timeline.isSome then brand_data ++ [app]
      else brand_data) []

/-! ### MetricsAggregator, asynchronous pipeline
(`analyze_video_with_progress`, app.py:1301-1355) -/

/-- The per-brand accumulation record of the asynchronous pipeline
(app.py:1315-1325).  `contexts` is a `Counter`, embedded as an
insertion-ordered association list. -/
structure BrandData where
  appearances : List Appearance
  total_exposure_time : ℚ
  contexts : List (String × ℕ)
  high_impact_moments : ℕ
  ad_placements : List Appearance
  in_game_placements : List Appearance
  ad_placement_time : ℚ
  in_game_placement_time : ℚ
deriving Repr, DecidableEq

/-- The zeroed accumulation record (app.py:1316-1324). -/
def initBrandData : BrandData :=
  { appearances := [], total_exposure_time := 0, contexts := [],
    high_impact_moments := 0, ad_placements := [], in_game_placements := [],
    ad_placement_time := 0, in_game_placement_time := 0 }

/-- A `Counter` increment: bump a key of an insertion-ordered counter. -/
def counterAdd : List (String × ℕ) → String → List (String × ℕ)
  | [], k => [(k, 1)]
  | (k', n) :: rest, k =>
    if k' = k then (k', n + 1) :: rest else (k', n) :: counterAdd rest k

/-- The asynchronous pipeline's high-impact test (app.py:1352-1355):
context in a fixed set, OR primary prominence, OR high attention. -/
def asyncHighImpact (app : Appearance) : Bool :=
  (["celebration", "interview", "commercial"] : List String).contains (app.context.getD "unknown") ||
  app.prominence == some "primary" || app.viewer_attention == some "high"

/-- Fold one appearance (whose `sponsorship_category` has already been
defaulted) into a brand's accumulation record (app.py:1327-1355). -/
def updateBrandData (app : Appearance) (d : BrandData) : BrandData :=
  let d := { d with appearances := d.appearances ++ [app] }
  let d :=
    if app.sponsorship_category == some "ad_placement" then
      { d with ad_placements := d.ad_placements ++ [app] }
    else
      { d with in_game_placements := d.in_game_placements ++ [app] }
  let d :=
    match app.timeline.getD [0, 0] with
    | t0 :: t1 :: _ =>
      let exposure := t1 - t0
      let d := { d with total_exposure_time := d.total_exposure_time + exposure }
      if app.sponsorship_category == some "ad_placement" then
        { d with ad_placement_time := d.ad_placement_time + exposure }
      else
        { d with in_game_placement_time := d.in_game_placement_time + exposure }
    | _ => d
  let d := { d with contexts := counterAdd d.contexts (app.context.getD "unknown") }
  if asyncHighImpact app then
    { d with high_impact_moments := d.high_impact_moments + 1 }
  else d

/-- Update the accumulation entry for `name` in the insertion-ordered
brand table, creating it zeroed when absent (app.py:1315-1325). -/
def bdInsert (name : String) (app : Appearance) :
    List (String × BrandData) → List (String × BrandData)
  | [] => [(name, updateBrandData app initBrandData)]
  | (k, v) :: rest =>
    if k = name then (k, updateBrandData app v) :: rest
    else (k, v) :: bdInsert name app rest

/-- Fold one raw appearance into the brand table (app.py:1303-1355):
skip empty or non-brand names, default `sponsorship_category` via the
classifier, then accumulate. -/
def buildBrandDataStep (bd : List (String × BrandData)) (app : Appearance) :
    List (String × BrandData) :=
  let brand_name := pyStrip (app.brand.getD "")
  if brand_name = "" || !is_valid_brand brand_name then bd
  else
    let cat := categorize_sponsorship_placement (app.type.getD "") (app.context.getD "")
    let app :=
      if app.sponsorship_category.isSome then app
      else { app with sponsorship_category := some cat }
    bdInsert brand_name app bd

/-- The asynchronous pipeline's `brand_data` table after processing all
raw appearances (app.py:1301-1355). -/
def buildBrandData (brand_appearances : List Appearance) : List (String × BrandData) :=
  brand_appearances.foldl buildBrandDataStep []

/-! ### ExternalIntelligenceGateway
(`calculate_ai_contextual_score`, `estimate_social_engagement`) -/

/-- Modelled from the external scoring service's reply: the three numeric
fields of the parsed JSON that the downstream code reads
(`placement_effectiveness_score` at app.py:864, and via the
backward-compatible `scoring_factors` / `roi_projection` blocks, the
overall ROI rating and engagement potential used by
`estimate_social_engagement` at app.py:1017-1019).  The service itself is
an external collaborator; a failed or unparseable call is `none` in the
oracle below. -/
structure OracleReply where
  placement_effectiveness_score : ℚ
  overall_roi_rating : ℚ
  engagement_potential : ℚ
deriving Repr, DecidableEq

/-- The external scoring collaborator: per brand name, either a parsed
reply or a failure. -/
def Oracle : Type := String → Option OracleReply

set_option linter.unusedVariables false in
/-- The scorer `calculate_ai_contextual_score` (app.py:704-906): empty input returns
`(0.0, {})`; otherwise the external call is mandatory — a failure raises
(no numeric fallback; `video_duration` only feeds the prompt text), and on
success the 0-100 effectiveness score is rescaled to 0-10 and clamped. -/
def calculate_ai_contextual_score (oracle : Oracle) (brand_data : List Appearance)
    (video_duration : ℚ) (brand_name : String) :
    Except String (ℚ × Option OracleReply) :=
  if brand_data.isEmpty then .ok (0, none)
  else
    match oracle brand_name with
    | none => .error "AI analysis is required for comprehensive brand placement insights."
    | some rep =>
      let placement_score := rep.placement_effectiveness_score
      let score := placement_score / 10
      let score := max 0 (min 10 score)
      .ok (score, some rep)

/-- The fixed per-context engagement bonuses (app.py:1028-1035). -/
def context_bonuses : List (String × ℚ) :=
  [("celebration", 2000), ("game_action", 1500), ("replay", 1000),
   ("interview", 750), ("goal", 2500), ("scoring", 2000)]

/-- The estimator `estimate_social_engagement` (app.py:1008-1060): requires AI insights
(raises without them); computes a base from the effectiveness, ROI and
engagement sub-scores and adds the per-context bonuses, truncated to int. -/
def estimate_social_engagement (brand_data : List Appearance)
    (ai_insights : Option OracleReply) : Except String ℤ :=
  if brand_data.isEmpty then .ok 0
  else
    match ai_insights with
    | none => .error "AI analysis required for social engagement metrics"
    | some rep =>
      let effectiveness_score := rep.placement_effectiveness_score / 10
      let roi_rating := rep.overall_roi_rating
      let engagement_potential := rep.engagement_potential
      let base_engagement : ℚ := 1000
      let ai_multiplier := effectiveness_score / 10 + roi_rating / 10
      let ai_boosted_engagement := base_engagement * ai_multiplier * (engagement_potential / 10)
      let total_engagement := brand_data.foldl (fun t app =>
        match List.lookup (app.context.getD "") context_bonuses with
        | some b => t + b
        | none => t) ai_boosted_engagement
      .ok (pyTrunc total_engagement)

/-- The body of the asynchronous pipeline's per-brand metrics loop
(app.py:1370-1454): the mandatory AI score, the social-engagement
estimate, the 1.0/0.6/0.3 prominence and attention weights, and the
assembled `BrandMetric`.  Any failure is re-raised wrapped (app.py:1454). -/
def brandMetricFor (oracle : Oracle) (video_duration : ℚ) (brand_name : String)
    (data : BrandData) : Except String BrandMetric :=
  match calculate_ai_contextual_score oracle data.appearances video_duration brand_name with
  | .error e => .error ("AI analysis is required for brand metrics. Error: " ++ e)
  | .ok (contextual_score, ai_insights) =>
    match estimate_social_engagement data.appearances ai_insights with
    | .error e => .error ("AI analysis is required for brand metrics. Error: " ++ e)
    | .ok social_engagement =>
      let avg_sentiment : ℚ := 8/10
      let prominence_scores := data.appearances.map (fun app =>
        if app.prominence == some "primary" then (1 : ℚ)
        else if app.prominence == some "secondary" then 6/10
        else 3/10)
      let attention_scores := data.appearances.map (fun app =>
        if app.viewer_attention == some "high" then (1 : ℚ)
        else if app.viewer_attention == some "medium" then 6/10
        else 3/10)
      let avg_prominence := if prominence_scores.isEmpty then 1/2 else listMean prominence_scores
      let avg_attention := if attention_scores.isEmpty then 1/2 else listMean attention_scores
      .ok {
        brand := brand_name,
        total_exposure_time := pyRound data.total_exposure_time 2,
        total_appearances := data.appearances.length,
        contextual_value_score := pyRound contextual_score 1,
        high_impact_moments := data.high_impact_moments,
        sentiment_score := pyRound avg_sentiment 2,
        sentiment_label := if avg_sentiment > 6/10 then "positive" else "neutral",
        avg_prominence := pyRound avg_prominence 2,
        avg_viewer_attention := pyRound avg_attention 2,
        contexts := data.contexts.map (·.1),
        estimated_social_mentions := social_engagement,
        appearances := data.appearances,
        sponsorship_breakdown := {
          ad_placements := {
            count := data.ad_placements.length,
            exposure_time := pyRound data.ad_placement_time 2,
            percentage_of_total :=
              if 0 < data.total_exposure_time then
                pyRound (data.ad_placement_time / data.total_exposure_time * 100) 1
              else 0 },
          in_game_placements := {
            count := data.in_game_placements.length,
            exposure_time := pyRound data.in_game_placement_time 2,
            percentage_of_total :=
              if 0 < data.total_exposure_time then
                pyRound (data.in_game_placement_time / data.total_exposure_time * 100) 1
              else 0 } },
        ad_placements := data.ad_placements,
        in_game_placements := data.in_game_placements }

/-- The per-brand loop (app.py:1370-1454): brands are processed in table
order and the first failure aborts the whole single-video analysis —
there is no partial metrics output. -/
def computeBrandMetrics (oracle : Oracle) (video_duration : ℚ) :
    List (String × BrandData) → Except String (List BrandMetric)
  | [] => .ok []
  | (name, d) :: rest =>
    match brandMetricFor oracle video_duration name d with
    | .error e => .error e
    | .ok m =>
      match computeBrandMetrics oracle video_duration rest with
      | .error e => .error e
      | .ok ms => .ok (m :: ms)

/-- The data payload of a successful `analyze_video_with_progress` run
(app.py:1301-1491), starting from the parsed raw appearances and the
retrieved video duration.  The summary and the flat `raw_detections`
array are assembled exactly as at app.py:1464-1477. -/
def runSingleVideoAnalysis (oracle : Oracle) (brand_appearances : List Appearance)
    (video_duration : ℚ) (video_id : String) (selected_brands : List String) :
    Except String Analysis :=
  let brand_data := buildBrandData brand_appearances
  let total_appearances := (brand_data.map (fun p => p.2.appearances.length)).sum
  let total_brands := brand_data.length
  match computeBrandMetrics oracle video_duration brand_data with
  | .error e => .error e
  | .ok brand_metrics =>
    .ok { summary := { event_title := "Brand Sponsorship Analysis",
                       video_duration_minutes := pyRound (video_duration / 60) 1,
                       total_brands_detected := total_brands,
                       total_brand_appearances := total_appearances,
                       brands_analyzed := selected_brands },
          brand_metrics := brand_metrics,
          raw_detections := brand_data.foldl (fun acc p => acc ++ p.2.appearances) [],
          video_id := video_id }

/-- The terminal job record of a single-video job: `analyze_video_with_progress`
marks the job completed with the data payload (app.py:1480-1491) or failed
with the exception message (app.py:1493-1499). -/
structure SingleJobOutcome where
  status : String
  data : Option Analysis
  error : Option String
deriving Repr, DecidableEq

/-- Terminal state of `analyze_video_with_progress` (app.py:1480-1499). -/
def runSingleVideoJob (oracle : Oracle) (brand_appearances : List Appearance)
    (video_duration : ℚ) (video_id : String) (selected_brands : List String) :
    SingleJobOutcome :=
  match runSingleVideoAnalysis oracle brand_appearances video_duration video_id selected_brands with
  | .ok d => { status := "completed", data := some d, error := none }
  | .error e => { status := "failed", data := none, error := some e }

/-! ### MetricsAggregator, synchronous endpoint
(`analyze_video`, app.py:2207-2276) -/

/-- The per-brand accumulation record of the synchronous endpoint
(app.py:2219-2233). -/
structure BrandSummaryData where
  brand : String
  appearances : List Appearance
  total_exposure_time : ℚ
  high_impact_moments : ℕ
  sentiment_scores : List ℚ
  prominence_scores : List ℚ
  contexts : List String
  viewer_attention_scores : List ℚ
  ad_placements : List Appearance
  in_game_placements : List Appearance
  ad_placement_time : ℚ
  in_game_placement_time : ℚ
deriving Repr, DecidableEq

/-- Zeroed synchronous accumulation record (app.py:2220-2233). -/
def initBrandSummaryData (name : String) : BrandSummaryData :=
  { brand := name, appearances := [], total_exposure_time := 0,
    high_impact_moments := 0, sentiment_scores := [], prominence_scores := [],
    contexts := [], viewer_attention_scores := [], ad_placements := [],
    in_game_placements := [], ad_placement_time := 0, in_game_placement_time := 0 }

/-- The synchronous endpoint's high-impact contexts (app.py:2260). -/
def syncHighImpactContexts : List String := ["celebration", "replay", "game_action"]

/-- Fold one appearance (category already defaulted) into a brand's
synchronous accumulation record (app.py:2235-2276). -/
def updateBrandSummary (app : Appearance) (d : BrandSummaryData) : BrandSummaryData :=
  let d := { d with appearances := d.appearances ++ [app] }
  let d :=
    if app.sponsorship_category == some "ad_placement" then
      { d with ad_placements := d.ad_placements ++ [app] }
    else
      { d with in_game_placements := d.in_game_placements ++ [app] }
  let d :=
    match app.timeline with
    | some [t0, t1] =>
      let exposure_time := t1 - t0
      let d := { d with total_exposure_time := d.total_exposure_time + exposure_time }
      if app.sponsorship_category == some "ad_placement" then
        { d with ad_placement_time := d.ad_placement_time + exposure_time }
      else
        { d with in_game_placement_time := d.in_game_placement_time + exposure_time }
    | _ => d
  let context := app.context.getD "unknown"
  let d :=
    if d.contexts.contains context then d
    else { d with contexts := d.contexts ++ [context] }
  let d :=
    if syncHighImpactContexts.contains context then
      { d with high_impact_moments := d.high_impact_moments + 1 }
    else d
  let prominence := app.prominence.getD "secondary"
  let prominence_score : ℚ :=
    if prominence = "primary" then 1
    else if prominence = "secondary" then 1/2
    else if prominence = "background" then 1/5
    else 1/2
  let d := { d with prominence_scores := d.prominence_scores ++ [prominence_score] }
  let sentiment := app.sentiment_context.getD "neutral"
  let sentiment_score : ℚ :=
    if sentiment = "positive" then 1
    else if sentiment = "neutral" then 0
    else if sentiment = "negative" then -1
    else 0
  let d := { d with sentiment_scores := d.sentiment_scores ++ [sentiment_score] }
  let attention := app.viewer_attention.getD "medium"
  let attention_score : ℚ :=
    if attention = "high" then 1
    else if attention = "medium" then 6/10
    else if attention = "low" then 3/10
    else 6/10
  { d with viewer_attention_scores := d.viewer_attention_scores ++ [attention_score] }

/-- Update the synchronous brand table entry for `name`, creating it when
absent (app.py:2219-2233). -/
def bsInsert (name : String) (app : Appearance) :
    List (String × BrandSummaryData) → List (String × BrandSummaryData)
  | [] => [(name, updateBrandSummary app (initBrandSummaryData name))]
  | (k, v) :: rest =>
    if k = name then (k, updateBrandSummary app v) :: rest
    else (k, v) :: bsInsert name app rest

/-- Fold one (validated or salvaged) appearance into the synchronous brand
table (app.py:2209-2276): key on `brand` with default `"Unknown"` (no
validity filter, no strip), default the `sponsorship_category`, accumulate. -/
def buildBrandSummaryStep (bs : List (String × BrandSummaryData)) (app : Appearance) :
    List (String × BrandSummaryData) :=
  let brand_name := app.brand.getD "Unknown"
  let cat := categorize_sponsorship_placement (app.type.getD "") (app.context.getD "")
  let app :=
    if app.sponsorship_category.isSome then app
    else { app with sponsorship_category := some cat }
  bsInsert brand_name app bs

/-- The synchronous endpoint's `brand_summary` table after processing all
appearances (app.py:2207-2276). -/
def buildBrandSummary (brand_data : List Appearance) : List (String × BrandSummaryData) :=
  brand_data.foldl buildBrandSummaryStep []

/-! ### TemporalMerger (`combine_video_analyses`, app.py:1656-1868) -/

/-- One entry of the combined summary's `videos_analyzed` index
(app.py:1700-1706). -/
structure VideoWindow where
  video_id : String
  filename : String
  duration_minutes : ℚ
  start_time_seconds : ℚ
  end_time_seconds : ℚ
deriving Repr, DecidableEq

/-- A merged per-brand metrics record.  Identical to `BrandMetric` except
that the zero-initialised entry (app.py:1712-1730) carries no
`sentiment_label` key: the label is only added by the post-processing of
brands with at least one appearance, so the field is an `Option`. -/
structure CombinedMetric where
  brand : String
  total_exposure_time : ℚ
  total_appearances : ℕ
  contextual_value_score : ℚ
  high_impact_moments : ℕ
  sentiment_score : ℚ
  sentiment_label : Option String
  avg_prominence : ℚ
  avg_viewer_attention : ℚ
  contexts : List String
  estimated_social_mentions : ℤ
  appearances : List Appearance
  sponsorship_breakdown : Breakdown
  ad_placements : List Appearance
  in_game_placements : List Appearance
deriving Repr, DecidableEq

/-- The combined summary block (app.py:1850-1858). -/
structure CombinedSummary where
  total_videos : ℕ
  combined_duration_minutes : ℚ
  total_brands_detected : ℕ
  total_brand_appearances : ℕ
  top_performing_brand : Option String
  top_brand_score : ℚ
  videos_analyzed : List VideoWindow
deriving Repr, DecidableEq

/-- The combined result returned by `combine_video_analyses`
(app.py:1861-1868). -/
structure CombinedResult where
  combined_summary : CombinedSummary
  combined_brand_metrics : List CombinedMetric
  raw_detections : List Appearance
  individual_analyses : List Analysis
  video_ids : List String
deriving Repr, DecidableEq

/-- Rewrite a record's timeline by a temporal offset, producing a copy
(app.py:1682-1691): the timeline is only rewritten when the key is
present and truthy, and the copy gets its first two endpoints offset.
On a present one-element timeline the source's `original_timeline[1]`
raises `IndexError` — a reachable case, since the asynchronous pipeline
never validates timeline shape — so the rewrite is fallible, the error
text being the exception's message. -/
def offsetAppearance (off : ℚ) (a : Appearance) : Except String Appearance :=
  match a.timeline with
  | none => .ok a
  | some [] => .ok a
  | some [_] => .error "list index out of range"
  | some (t0 :: t1 :: _) => .ok { a with timeline := some [t0 + off, t1 + off] }

/-- Offset every record of a list in order, the first `IndexError`
aborting the loop (the source's offsetting loops at app.py:1681-1691 and
1740-1775). -/
def offsetAppearances (off : ℚ) : List Appearance → Except String (List Appearance)
  | [] => .ok []
  | a :: rest =>
    match offsetAppearance off a with
    | .error e => .error e
    | .ok a' =>
      match offsetAppearances off rest with
      | .error e => .error e
      | .ok rest' => .ok (a' :: rest')

/-- A timeline value the merge's offset rewrite processes without
raising: absent, falsy, or carrying at least two endpoints.  A present
one-element timeline raises `IndexError` in the source
(app.py:1687-1690, 1744-1748, 1757-1761, 1769-1773). -/
def timelineOffsettable (a : Appearance) : Bool :=
  match a.timeline with
  | none => true
  | some [] => true
  | some [_] => false
  | some (_ :: _ :: _) => true

/-- Every record the merge will offset-rewrite in this analysis — its raw
detections and each brand metric's appearance and placement lists — is
offsettable, so the merge cannot raise on it. -/
def analysisOffsettable (analysis : Analysis) : Bool :=
  analysis.raw_detections.all timelineOffsettable &&
  analysis.brand_metrics.all (fun bm =>
    bm.appearances.all timelineOffsettable &&
    bm.ad_placements.all timelineOffsettable &&
    bm.in_game_placements.all timelineOffsettable)

/-- The zero-initialised combined entry for a brand (app.py:1712-1730). -/
def initCombinedMetric (name : String) : CombinedMetric :=
  { brand := name, total_exposure_time := 0, total_appearances := 0,
    contextual_value_score := 0, high_impact_moments := 0, sentiment_score := 0,
    sentiment_label := none, avg_prominence := 0, avg_viewer_attention := 0,
    contexts := [], estimated_social_mentions := 0, appearances := [],
    sponsorship_breakdown :=
      { ad_placements := { count := 0, exposure_time := 0, percentage_of_total := 0 },
        in_game_placements := { count := 0, exposure_time := 0, percentage_of_total := 0 } },
    ad_placements := [], in_game_placements := [] }

/-- Python `set.update` on the combined contexts (app.py:1721,1777-1778): the
source keeps a Python `set`; it is embedded as an insertion-ordered
duplicate-free list, which carries the same membership information. -/
def ctxUnion (s : List String) (new : List String) : List String :=
  new.foldl (fun acc c => if acc.contains c then acc else acc ++ [c]) s

/-- Fold one per-video brand metric into the combined entry for its brand
(app.py:1732-1787), given the already-offset appearance and placement
lists: sum the counters, concatenate the offset lists, union the
contexts, and sum the breakdown counts and exposure times. -/
def mergeMetricInto (offset_appearances offset_ad_placements offset_in_game_placements :
    List Appearance) (cm : CombinedMetric) (bm : BrandMetric) : CombinedMetric :=
  { cm with
    total_exposure_time := cm.total_exposure_time + bm.total_exposure_time,
    total_appearances := cm.total_appearances + bm.total_appearances,
    high_impact_moments := cm.high_impact_moments + bm.high_impact_moments,
    estimated_social_mentions := cm.estimated_social_mentions + bm.estimated_social_mentions,
    appearances := cm.appearances ++ offset_appearances,
    ad_placements := cm.ad_placements ++ offset_ad_placements,
    in_game_placements := cm.in_game_placements ++ offset_in_game_placements,
    contexts := ctxUnion cm.contexts bm.contexts,
    sponsorship_breakdown :=
      { ad_placements :=
          { count := cm.sponsorship_breakdown.ad_placements.count +
              bm.sponsorship_breakdown.ad_placements.count,
            exposure_time := cm.sponsorship_breakdown.ad_placements.exposure_time +
              bm.sponsorship_breakdown.ad_placements.exposure_time,
            percentage_of_total := cm.sponsorship_breakdown.ad_placements.percentage_of_total },
        in_game_placements :=
          { count := cm.sponsorship_breakdown.in_game_placements.count +
              bm.sponsorship_breakdown.in_game_placements.count,
            exposure_time := cm.sponsorship_breakdown.in_game_placements.exposure_time +
              bm.sponsorship_breakdown.in_game_placements.exposure_time,
            percentage_of_total := cm.sponsorship_breakdown.in_game_placements.percentage_of_total } } }

/-- Update-or-create the combined entry for `name` in the insertion-ordered
combined table (app.py:1710-1730). -/
def cmUpsert (name : String) (f : CombinedMetric → CombinedMetric) :
    List (String × CombinedMetric) → List (String × CombinedMetric)
  | [] => [(name, f (initCombinedMetric name))]
  | (k, v) :: rest =>
    if k = name then (k, f v) :: rest
    else (k, v) :: cmUpsert name f rest

/-- The merge's running accumulator (app.py:1661-1667). -/
structure CombineState where
  combined : List (String × CombinedMetric)
  all_detections : List Appearance
  total_duration : ℚ
  total_brand_appearances : ℕ
  videos_analyzed : List VideoWindow
  cumulative_duration_seconds : ℚ
deriving Repr, DecidableEq

/-- The merge's initial accumulator (app.py:1661-1667). -/
def initCombineState : CombineState :=
  { combined := [], all_detections := [], total_duration := 0,
    total_brand_appearances := 0, videos_analyzed := [],
    cumulative_duration_seconds := 0 }

/-- One step of the merge's per-metric loop (app.py:1709-1787): offset
the metric's appearance and placement lists under the current cumulative
offset — an `IndexError` in any of the three loops aborts the merge —
then update-or-create the combined entry for the metric's brand. -/
def combineMetricStep (off : ℚ) (c : List (String × CombinedMetric)) (bm : BrandMetric) :
    Except String (List (String × CombinedMetric)) :=
  match offsetAppearances off bm.appearances with
  | .error e => .error e
  | .ok offset_appearances =>
    match offsetAppearances off bm.ad_placements with
    | .error e => .error e
    | .ok offset_ad_placements =>
      match offsetAppearances off bm.in_game_placements with
      | .error e => .error e
      | .ok offset_in_game_placements =>
        .ok (cmUpsert bm.brand
          (fun cm => mergeMetricInto offset_appearances offset_ad_placements
            offset_in_game_placements cm bm) c)

/-- The merge's loop over one video's brand metrics (app.py:1709-1787),
the first raised `IndexError` aborting it. -/
def combineMetricsFold (off : ℚ) :
    List (String × CombinedMetric) → List BrandMetric →
    Except String (List (String × CombinedMetric))
  | c, [] => .ok c
  | c, bm :: rest =>
    match combineMetricStep off c bm with
    | .error e => .error e
    | .ok c' => combineMetricsFold off c' rest

/-- One iteration of the merge's main loop (app.py:1670-1790): offset the
raw detections, extend the totals and the video index, merge each brand
metric under the current cumulative offset, then advance the offset by
this video's duration.  Any `IndexError` raised while offsetting aborts
the whole merge. -/
def combineStep (st : CombineState) (analysis : Analysis) : Except String CombineState :=
  let summary := analysis.summary
  match offsetAppearances st.cumulative_duration_seconds analysis.raw_detections with
  | .error e => .error e
  | .ok offset_detections =>
    match combineMetricsFold st.cumulative_duration_seconds st.combined
        analysis.brand_metrics with
    | .error e => .error e
    | .ok combined =>
      let video_duration_seconds := summary.video_duration_minutes * 60
      .ok { combined := combined,
            all_detections := st.all_detections ++ offset_detections,
            total_duration := st.total_duration + summary.video_duration_minutes,
            total_brand_appearances := st.total_brand_appearances +
              summary.total_brand_appearances,
            videos_analyzed := st.videos_analyzed ++
              [{ video_id := analysis.video_id,
                 filename := "Video " ++ strTake analysis.video_id 8,
                 duration_minutes := summary.video_duration_minutes,
                 start_time_seconds := st.cumulative_duration_seconds,
                 end_time_seconds := st.cumulative_duration_seconds + video_duration_seconds }],
            cumulative_duration_seconds :=
              st.cumulative_duration_seconds + video_duration_seconds }

/-- The merge's main loop (app.py:1670-1790) over the analyses in list
order, the first raised `IndexError` aborting it. -/
def combineFold : CombineState → List Analysis → Except String CombineState
  | st, [] => .ok st
  | st, analysis :: rest =>
    match combineStep st analysis with
    | .error e => .error e
    | .ok st' => combineFold st' rest

/-- The per-brand score collection of the merge's post-processing
(app.py:1808-1814): walk every individual analysis and collect field `f`
of every brand metric whose `brand` equals the combined entry's key.
(The source fills its four score lists in this same single pass.) -/
def collectScores (individual_analyses : List Analysis) (brand_name : String)
    (f : BrandMetric → ℚ) : List ℚ :=
  individual_analyses.foldl (fun acc analysis =>
    analysis.brand_metrics.foldl (fun acc bm =>
      if bm.brand = brand_name then acc ++ [f bm] else acc) acc) []

/-- The merged sentiment label thresholds (app.py:1822-1827). -/
def sentimentLabelOf (s : ℚ) : String :=
  if s > 1/10 then "positive" else if s < -(1/10) then "negative" else "neutral"

/-- The merge's per-brand post-processing (app.py:1795-1837): for brands
with at least one appearance, recompute the four scores as the arithmetic
mean over the contributing per-video metrics and re-derive the sentiment
label; then recompute the breakdown percentages from the merged totals. -/
def combinePostProcess (individual_analyses : List Analysis)
    (entry : String × CombinedMetric) : CombinedMetric :=
  let brand_name := entry.1
  let metrics := entry.2
  let metrics :=
    if 0 < metrics.total_appearances then
      let contextual_scores := collectScores individual_analyses brand_name (·.contextual_value_score)
      let sentiment_scores := collectScores individual_analyses brand_name (·.sentiment_score)
      let prominence_scores := collectScores individual_analyses brand_name (·.avg_prominence)
      let attention_scores := collectScores individual_analyses brand_name (·.avg_viewer_attention)
      let metrics :=
        { metrics with
          contextual_value_score := listMean contextual_scores,
          sentiment_score := listMean sentiment_scores,
          avg_prominence := listMean prominence_scores,
          avg_viewer_attention := listMean attention_scores }
      { metrics with sentiment_label := some (sentimentLabelOf metrics.sentiment_score) }
    else metrics
  let total_exposure := metrics.total_exposure_time
  if 0 < total_exposure then
    { metrics with sponsorship_breakdown :=
        { ad_placements :=
            { metrics.sponsorship_breakdown.ad_placements with
              percentage_of_total :=
                metrics.sponsorship_breakdown.ad_placements.exposure_time / total_exposure * 100 },
          in_game_placements :=
            { metrics.sponsorship_breakdown.in_game_placements with
              percentage_of_total :=
                metrics.sponsorship_breakdown.in_game_placements.exposure_time / total_exposure * 100 } } }
  else metrics

/-- The merge `combine_video_analyses` (app.py:1656-1868): raises on an empty input
list; otherwise folds the analyses in list order — any `IndexError`
raised while offsetting a one-element timeline propagates out —
post-processes each combined brand, sorts by total exposure time
descending (Python's stable sort), and assembles the combined result.
(The source's `if not analysis: continue` skips falsy elements; an
`Analysis` record is never falsy.) -/
def combine_video_analyses (individual_analyses : List Analysis)
    (video_ids : List String) : Except String CombinedResult :=
  if individual_analyses.isEmpty then
    .error "No successful analyses to combine"
  else
    match combineFold initCombineState individual_analyses with
    | .error e => .error e
    | .ok st =>
      let combined_brand_list := st.combined.map (combinePostProcess individual_analyses)
      let sorted := combined_brand_list.mergeSort
        (fun a b => b.total_exposure_time ≤ a.total_exposure_time)
      let top_brand := match sorted with
        | [] => none
        | m :: _ => some m.brand
      let top_brand_score := match sorted with
        | [] => 0
        | m :: _ => m.contextual_value_score
      .ok { combined_summary :=
              { total_videos := video_ids.length,
                combined_duration_minutes := st.total_duration,
                total_brands_detected := sorted.length,
                total_brand_appearances := st.total_brand_appearances,
                top_performing_brand := top_brand,
                top_brand_score := top_brand_score,
                videos_analyzed := st.videos_analyzed },
            combined_brand_metrics := sorted,
            raw_detections := st.all_detections,
            individual_analyses := individual_analyses,
            video_ids := video_ids }

/-! ### ParallelOrchestrator
(`analyze_multiple_videos_with_progress`, app.py:1568-1654) -/

/-- The orchestrator's result collection (app.py:1590-1624): per-video
outcomes (`some` = the successful analysis payload, `none` = a failed
unit) are appended to `individual_analyses` in the order the parallel
futures complete (`as_completed`), keeping only the successes.
`completion_order` is the completion order as a list of request indices. -/
def collectIndividualAnalyses (outcomes : List (Option Analysis))
    (completion_order : List ℕ) : List Analysis :=
  completion_order.filterMap (fun i => outcomes.getD i none)

/-- The terminal job record of a multi-video job. -/
structure MultiJobOutcome where
  status : String
  data : Option CombinedResult
  error : Option String
deriving Repr, DecidableEq

/-- Terminal state of `analyze_multiple_videos_with_progress`
(app.py:1636-1654): the job completes with the combined result, or fails
with the merge's exception message. -/
def runMultiVideoJob (outcomes : List (Option Analysis))
    (completion_order : List ℕ) (video_ids : List String) : MultiJobOutcome :=
  match combine_video_analyses (collectIndividualAnalyses outcomes completion_order) video_ids with
  | .ok r => { status := "completed", data := some r, error := none }
  | .error e => { status := "failed", data := none, error := some e }

/-- The `videos_analyzed` ids of a terminal multi-video job (empty when
the job failed). -/
def jobVideosAnalyzedIds (o : MultiJobOutcome) : List String :=
  match o.data with
  | some r => r.combined_summary.videos_analyzed.map (·.video_id)
  | none => []

/-! ### JobTracker (`AnalysisStatus`, app.py:50-93) and the pipelines'
progress-reporting call sequences -/

/-- One job's mutable record in the `AnalysisStatus` table.  `data` holds
the (opaque, for lifecycle purposes) result payload; timestamps carry no
logic and are omitted. -/
structure Job where
  status : String
  progress : ℕ
  message : String
  stage : Option String
  details : Option String
  brands_found : List String
  data : Option Unit
  error : Option String
deriving Repr, DecidableEq

/-- Job creation `create_job` (app.py:55-69): a fresh pending job with zeroed progress
and null `data`/`error`. -/
def createJob : Job :=
  { status := "pending", progress := 0, message := "Analysis queued",
    stage := none, details := none, brands_found := [], data := none, error := none }

/-- One `update_job` argument: the partial field set passed to
`dict.update` (app.py:71-76).  `none` = key absent from the update.  The
pipelines never pass an explicit null for `stage`/`details`/`data`/`error`,
so present keys always carry values. -/
structure JobUpdate where
  status : Option String := none
  progress : Option ℕ := none
  message : Option String := none
  stage : Option String := none
  details : Option String := none
  brands_found : Option (List String) := none
  data : Option Unit := none
  error : Option String := none
deriving Repr, DecidableEq

/-- Job mutation `update_job` (app.py:71-76): `dict.update` — every key present in the
update overwrites the job's field, absent keys are untouched. -/
def update_job (j : Job) (u : JobUpdate) : Job :=
  { status := u.status.getD j.status,
    progress := u.progress.getD j.progress,
    message := u.message.getD j.message,
    stage := match u.stage with | some s => some s | none => j.stage,
    details := match u.details with | some s => some s | none => j.details,
    brands_found := u.brands_found.getD j.brands_found,
    data := match u.data with | some d => some d | none => j.data,
    error := match u.error with | some e => some e | none => j.error }

/-- Python `", ".join(l)`. -/
def joinComma : List String → String
  | [] => ""
  | [s] => s
  | s :: rest => s ++ ", " ++ joinComma rest

/-- The eight in-flight `update_job` calls of
`analyze_video_with_progress`, in program order (app.py:1133-1462). -/
def singleProcessingUpdates (brands_to_analyze : List String) (n_detections : ℕ) :
    List JobUpdate :=
  [ { status := some "processing", stage := some "initialization", progress := some 0,
      message := some "Starting video analysis...",
      details := some "Initializing TwelveLabs connection" },
    { status := some "processing", stage := some "brand_detection", progress := some 25,
      message := some ("Focusing on " ++ toString brands_to_analyze.length ++ " selected brands"),
      details := some (joinComma (brands_to_analyze.take 5) ++
        (if brands_to_analyze.length > 5 then "..." else "")),
      brands_found := some brands_to_analyze },
    { status := some "processing", stage := some "brand_analysis", progress := some 30,
      message := some "Analyzing brand appearances...",
      details := some "Scanning for logos, mentions, and placements" },
    { status := some "processing", stage := some "brand_analysis", progress := some 35,
      message := some "Analyzing video with multimodal AI...",
      details := some "Detecting brands, logos, and sponsorship content" },
    { status := some "processing", stage := some "brand_analysis", progress := some 50,
      message := some "Processing AI response...",
      details := some "Extracting brand detection data" },
    { status := some "processing", stage := some "processing", progress := some 60,
      message := some "Processing brand appearances...",
      details := some ("Analyzing " ++ toString n_detections ++ " detections") },
    { status := some "processing", stage := some "metrics", progress := some 75,
      message := some "Calculating brand metrics...",
      details := some "Computing exposure scores and insights" },
    { status := some "processing", stage := some "finalizing", progress := some 90,
      message := some "Generating insights...",
      details := some "Creating executive summary" } ]

/-- The completion update of `analyze_video_with_progress` (app.py:1480-1491). -/
def singleCompleteUpdate : JobUpdate :=
  { status := some "completed", progress := some 100,
    message := some "Analysis complete!", data := some () }

/-- The failure update of `analyze_video_with_progress` (app.py:1495-1499):
an exception marks the job failed with the exception text; neither
`progress` nor `data` is touched. -/
def singleFailUpdate (err : String) : JobUpdate :=
  { status := some "failed", message := some "Analysis failed", error := some err }

/-- The family of update sequences a single-video job can receive: the
exception interrupting the pipeline body is modelled by a cut-off point
`k` (the number of in-flight updates performed).  `failed = false` is the
full successful run (app.py:1127-1499). -/
def singleTrace (brands_to_analyze : List String) (n_detections k : ℕ)
    (failed : Bool) (err : String) : List JobUpdate :=
  (singleProcessingUpdates brands_to_analyze n_detections).take k ++
    [if failed then singleFailUpdate err else singleCompleteUpdate]

/-- The opening update of `analyze_multiple_videos_with_progress`
(app.py:1574-1580). -/
def multiInitUpdate (total_videos : ℕ) : JobUpdate :=
  { status := some "processing", stage := some "initialization", progress := some 0,
    message := some ("Starting parallel analysis of " ++ toString total_videos ++ " videos..."),
    details := some "Initializing parallel multi-video analysis" }

/-- The per-completion update (app.py:1612-1619) for completion count `c`
of `t` videos: progress is `int((c/t)*80)`, embedded as `80*c/t` in `ℕ`
(integer floor; the float rounding of the source agrees on these small
operands and is monotone either way). -/
def multiCompletionUpdate (t c : ℕ) (last_video : String) : JobUpdate :=
  { status := some "processing", stage := some "brand_analysis",
    progress := some (80 * c / t),
    message := some ("Completed " ++ toString c ++ " of " ++ toString t ++ " videos..."),
    details := some ("Last completed: " ++ last_video) }

/-- The pre-merge update (app.py:1628-1634). -/
def multiCombineUpdate (n_success : ℕ) : JobUpdate :=
  { status := some "processing", stage := some "finalizing", progress := some 85,
    message := some "Combining analysis results...",
    details := some ("Merging data from " ++ toString n_success ++ " successfully analyzed videos") }

/-- The completion update of the multi-video job (app.py:1639-1644). -/
def multiCompleteUpdate (n_success t : ℕ) : JobUpdate :=
  { status := some "completed", progress := some 100,
    message := some ("Parallel multi-video analysis completed successfully (" ++
      toString n_success ++ "/" ++ toString t ++ " videos)"),
    data := some () }

/-- The failure update of the multi-video job (app.py:1650-1654). -/
def multiFailUpdate (err : String) : JobUpdate :=
  { status := some "failed", message := some "Parallel multi-video analysis failed",
    error := some err }

/-- The family of update sequences a multi-video job can receive
(app.py:1568-1654): the opening update, one progress update per processed
completion (`cs` is the increasing list of completion counts that
reported — a unit whose `future.result()` raised is skipped by the
`continue`, so counts may be missing), the pre-merge update, then the
terminal update (the merge is the only fallible step after the pool). -/
def multiTrace (t : ℕ) (cs : List ℕ) (vids : ℕ → String) (n_success : ℕ)
    (ok : Bool) (err : String) : List JobUpdate :=
  multiInitUpdate t :: cs.map (fun c => multiCompletionUpdate t c (vids c)) ++
    [multiCombineUpdate n_success,
     if ok then multiCompleteUpdate n_success t else multiFailUpdate err]

/-- The successive job states produced by applying a pipeline's update
sequence to a freshly created job, initial state included. -/
def jobStates (updates : List JobUpdate) : List Job :=
  List.scanl update_job createJob updates

/-- The lifecycle rank of a status string:
pending < processing < terminal. -/
def statusRank (s : String) : ℕ :=
  if s = "pending" then 0
  else if s = "processing" then 1
  else if s = "completed" then 2
  else if s = "failed" then 2
  else 3

/-- One step of a job run never regresses: the status rank and the
progress are both non-decreasing. -/
def stepOK (j j' : Job) : Prop :=
  statusRank j.status ≤ statusRank j'.status ∧ j.progress ≤ j'.progress

instance (j j' : Job) : Decidable (stepOK j j') := by
  unfold stepOK; infer_instance

/-- The job lifecycle invariant over a full run: status rank and progress
never regress, `data` and `error` stay null in every non-terminal state,
and the final state is terminal with exactly one of `data`/`error` set. -/
def jobRunInvariant (states : List Job) : Prop :=
  List.Chain' stepOK states ∧
  (∀ s ∈ states.dropLast, s.data = none ∧ s.error = none) ∧
  (∀ s ∈ states.getLast?,
    (s.status = "completed" ∧ s.data.isSome ∧ s.error = none) ∨
    (s.status = "failed" ∧ s.error.isSome ∧ s.data = none))

/-! ### Helper definitions for the statements below -/

/-- Whether a fallible computation succeeded. -/
def exceptIsOk {α : Type} : Except String α → Bool
  | .ok _ => true
  | .error _ => false

/-- The combined brand metrics of a merge outcome (empty on failure). -/
def combinedMetricsOf (r : Except String CombinedResult) : List CombinedMetric :=
  match r with
  | .ok c => c.combined_brand_metrics
  | .error _ => []

/-- The per-video metrics contributed for `name`: every brand-metrics
record carrying that exact brand name, across all individual analyses in
order.  A brand "appears in" a video exactly when that video's analysis
holds a metrics record for it, so this is the declarative the-videos-
where-the-brand-appears collection the merge's averaging is specified
against. -/
def contributingMetrics (individual_analyses : List Analysis) (name : String) :
    List BrandMetric :=
  ((individual_analyses.map Analysis.brand_metrics).flatten).filter
    (fun bm => bm.brand = name)

/-- A fully valid concrete appearance used by several witnesses. -/
def sampleAppearance : Appearance :=
  { brand := some "Nike", timeline := some [10, 20], type := some "logo",
    sponsorship_category := some "in_game_placement", prominence := some "primary",
    context := some "game_action", description := some "Nike logo on the jersey front",
    sentiment_context := some "positive", viewer_attention := some "high" }

/-- The same appearance shifted to `[5, 15]` (second video of the merge
scenario). -/
def sampleAppearanceB : Appearance :=
  { sampleAppearance with timeline := some [5, 15] }

/-- A concrete per-video metrics record for one 10-second appearance of
`"Nike"`, as the single-video pipeline would produce it. -/
def sampleMetric (a : Appearance) : BrandMetric :=
  { brand := "Nike", total_exposure_time := 10, total_appearances := 1,
    contextual_value_score := 7, high_impact_moments := 1, sentiment_score := 8/10,
    sentiment_label := "positive", avg_prominence := 1, avg_viewer_attention := 1,
    contexts := ["game_action"], estimated_social_mentions := 2500,
    appearances := [a],
    sponsorship_breakdown :=
      { ad_placements := { count := 0, exposure_time := 0, percentage_of_total := 0 },
        in_game_placements := { count := 1, exposure_time := 10, percentage_of_total := 100 } },
    ad_placements := [], in_game_placements := [a] }

/-- A concrete 600-second single-video analysis for video `vid` whose only
brand is `"Nike"` with the single appearance `a`. -/
def sampleAnalysis (vid : String) (a : Appearance) : Analysis :=
  { summary := { event_title := "Brand Sponsorship Analysis",
                 video_duration_minutes := 10, total_brands_detected := 1,
                 total_brand_appearances := 1, brands_analyzed := ["Nike"] },
    brand_metrics := [sampleMetric a], raw_detections := [a], video_id := vid }

/-- A raw record that fails `BrandAppearance` validation (its description
is too short and its `sponsorship_category` is missing) but still has
`brand` and `timeline` — the salvageable shape of app.py:2177. -/
def salvageableRecord : Appearance :=
  { brand := some "Nike", timeline := some [5, 10], type := some "logo",
    prominence := some "primary", context := some "game_action",
    description := some "short", sentiment_context := some "positive",
    viewer_attention := some "high" }

/-- An appearance that is high-impact under the asynchronous pipeline's
rule (interview context, primary prominence) but has none of the
synchronous endpoint's high-impact contexts. -/
def interviewAppearance : Appearance :=
  { brand := some "Nike", timeline := some [3, 9], type := some "logo",
    sponsorship_category := some "in_game_placement", prominence := some "primary",
    context := some "interview", description := some "Nike logo during the interview",
    sentiment_context := some "positive", viewer_attention := some "high" }

/-- An appearance that is NOT high-impact under the asynchronous rule
(crowd-shot context, background prominence, low attention) but has one of
the synchronous endpoint's high-impact contexts (replay). -/
def replayAppearance : Appearance :=
  { brand := some "Nike", timeline := some [30, 34], type := some "stadium_signage",
    sponsorship_category := some "in_game_placement", prominence := some "background",
    context := some "replay", description := some "Nike signage behind the replay",
    sentiment_context := some "neutral", viewer_attention := some "low" }

/-- A raw appearance with a one-element timeline (legal raw input — the
asynchronous pipeline consumes parsed detections without validating
them).  It is not offsettable: the merge's offset rewrite raises
`IndexError` on it (app.py:1687-1690).  Also used to keep
single-video-pipeline witness computations on literal rationals. -/
def minimalAppearance : Appearance :=
  { brand := some "Nike", timeline := some [7], type := some "logo",
    sponsorship_category := some "in_game_placement", prominence := some "primary",
    context := some "interview", description := some "Nike logo shown in the interview",
    sentiment_context := some "positive", viewer_attention := some "high" }

/-- An in-flight pipeline update: keeps the job processing, never touches
`data`/`error`, and always re-reports progress. -/
def processingShaped (u : JobUpdate) : Prop :=
  u.status = some "processing" ∧ u.data = none ∧ u.error = none ∧ u.progress.isSome

/-- A terminal pipeline update: completed-with-data-at-100, or
failed-with-error leaving progress alone. -/
def terminalShaped (u : JobUpdate) : Prop :=
  (u.status = some "completed" ∧ u.data.isSome ∧ u.error = none ∧ u.progress = some 100) ∨
  (u.status = some "failed" ∧ u.error.isSome ∧ u.data = none ∧ u.progress = none)

lemma head?_scanl {α β : Type} (f : α → β → α) (b : α) (l : List β) :
    (List.scanl f b l).head? = some b := by
  cases l <;> simp [List.scanl]

lemma scanl_ne_nil {α β : Type} (f : α → β → α) (b : α) (l : List β) :
    List.scanl f b l ≠ [] := by
  cases l <;> simp [List.scanl]

lemma getLast?_cons_ne_nil {α : Type} (a : α) {l : List α} (h : l ≠ []) :
    (a :: l).getLast? = l.getLast? := by
  cases l with
  | nil => exact absurd rfl h
  | cons b m => exact List.getLast?_cons_cons

/-- Any run made of processing-shaped updates with non-decreasing reported
progress, closed by a terminal-shaped update, satisfies the job lifecycle
invariant — from any starting state that is at most processing with null
`data`/`error` and progress within range. -/
lemma jobRunAux (term : JobUpdate) (hterm : terminalShaped term) :
    ∀ (us : List JobUpdate) (j : Job),
      j.data = none → j.error = none → statusRank j.status ≤ 1 → j.progress ≤ 100 →
      (∀ u ∈ us, processingShaped u) →
      List.Chain' (· ≤ ·) (us.filterMap (fun u => u.progress)) →
      (∀ p, (us.filterMap (fun u => u.progress)).head? = some p → j.progress ≤ p) →
      (∀ p ∈ us.filterMap (fun u => u.progress), p ≤ 100) →
      jobRunInvariant (List.scanl update_job j (us ++ [term])) := by
  intro us
  induction us with
  | nil =>
    intro j hdata herr hrank hprog _ _ _ _
    refine ⟨?_, ?_, ?_⟩
    · -- chain over [j, update_job j term]
      simp only [List.nil_append, List.scanl]
      refine List.chain'_pair.mpr ?_
      have h2 : statusRank (update_job j term).status = 2 := by
        rcases hterm with ⟨hs, _, _, _⟩ | ⟨hs, _, _, _⟩ <;>
          simp [update_job, hs, statusRank]
      refine ⟨by rw [h2]; omega, ?_⟩
      rcases hterm with ⟨_, _, _, hp⟩ | ⟨_, _, _, hp⟩
      · simpa [update_job, hp] using hprog
      · simp [update_job, hp]
    · simp only [List.nil_append, List.scanl, List.dropLast]
      intro s hs
      simp at hs
      subst hs; exact ⟨hdata, herr⟩
    · simp only [List.nil_append, List.scanl, List.getLast?]
      intro s hs
      simp at hs
      subst hs
      rcases hterm with ⟨hs', hd, he, _⟩ | ⟨hs', he, hd, _⟩
      · refine Or.inl ⟨by simp [update_job, hs'], ?_, by simp [update_job, he, herr]⟩
        simp only [update_job]
        cases hu : term.data with
        | none => rw [hu] at hd; simp at hd
        | some d => simp
      · refine Or.inr ⟨by simp [update_job, hs'], ?_, by simp [update_job, hd, hdata]⟩
        simp only [update_job]
        cases hu : term.error with
        | none => rw [hu] at he; simp at he
        | some e => simp
  | cons u us ih =>
    intro j hdata herr hrank hprog hshape hchain hhead hbound
    have hu := hshape u (by simp)
    obtain ⟨hus, hud, hue, hup⟩ := hu
    obtain ⟨p, hp⟩ := Option.isSome_iff_exists.mp hup
    have hfm : (List.filterMap (fun u => u.progress) (u :: us)) =
        p :: List.filterMap (fun u => u.progress) us := by
      simp [List.filterMap_cons, hp]
    set j' := update_job j u with hj'
    have hj'data : j'.data = none := by simp [hj', update_job, hud, hdata]
    have hj'err : j'.error = none := by simp [hj', update_job, hue, herr]
    have hj'stat : j'.status = "processing" := by simp [hj', update_job, hus]
    have hj'prog : j'.progress = p := by simp [hj', update_job, hp]
    have hrank' : statusRank j'.status ≤ 1 := by simp [hj'stat, statusRank]
    have hprog' : j'.progress ≤ 100 := by
      rw [hj'prog]
      exact hbound p (by rw [hfm]; simp)
    have hchain' : List.Chain' (· ≤ ·) (us.filterMap (fun u => u.progress)) := by
      rw [hfm] at hchain
      exact hchain.tail
    have hhead' : ∀ q, (us.filterMap (fun u => u.progress)).head? = some q →
        j'.progress ≤ q := by
      intro q hq
      rw [hj'prog]
      rw [hfm] at hchain
      exact List.chain'_cons'.mp hchain |>.1 q hq
    have hbound' : ∀ q ∈ us.filterMap (fun u => u.progress), q ≤ 100 := by
      intro q hq
      exact hbound q (by rw [hfm]; simp [hq])
    have hstep : stepOK j j' := by
      refine ⟨?_, ?_⟩
      · rw [hj'stat]
        have hp1 : statusRank "processing" = 1 := by simp [statusRank]
        rw [hp1]; exact hrank
      · rw [hj'prog]
        exact hhead p (by rw [hfm]; rfl)
    have hres := ih j' hj'data hj'err hrank' hprog' (fun v hv => hshape v (by simp [hv]))
      hchain' hhead' hbound'
    obtain ⟨hc, hdl, hlast⟩ := hres
    have hsc : List.scanl update_job j ((u :: us) ++ [term]) =
        j :: List.scanl update_job j' (us ++ [term]) := by
      simp [List.scanl, hj']
    rw [hsc]
    refine ⟨?_, ?_, ?_⟩
    · refine List.chain'_cons'.mpr ⟨?_, hc⟩
      intro y hy
      rw [head?_scanl] at hy
      simp at hy
      subst hy
      exact hstep
    · intro s hs
      rw [List.dropLast_cons_of_ne_nil (scanl_ne_nil _ _ _)] at hs
      rcases List.mem_cons.mp hs with h | h
      · subst h; exact ⟨hdata, herr⟩
      · exact hdl s h
    · intro s hs
      rw [getLast?_cons_ne_nil _ (scanl_ne_nil _ _ _)] at hs
      exact hlast s hs

lemma singleUpdates_shaped (brands : List String) (n : ℕ) :
    ∀ u ∈ singleProcessingUpdates brands n, processingShaped u := by
  intro u hu
  simp only [singleProcessingUpdates, List.mem_cons, List.not_mem_nil, or_false] at hu
  rcases hu with h | h | h | h | h | h | h | h <;> subst h <;>
    exact ⟨rfl, rfl, rfl, rfl⟩

lemma singleProgressList (brands : List String) (n k : ℕ) :
    ((singleProcessingUpdates brands n).take k).filterMap (fun u => u.progress) =
      ([0, 25, 30, 35, 50, 60, 75, 90] : List ℕ).take k := by
  rcases Nat.lt_or_ge k 8 with h | h
  · interval_cases k <;> rfl
  · rw [List.take_of_length_le (by simp [singleProcessingUpdates]; omega),
        List.take_of_length_le (by simp; omega)]
    rfl

lemma pr_le_80 (t c : ℕ) (h : c ≤ t) : 80 * c / t ≤ 80 := by
  rcases Nat.eq_zero_or_pos t with ht | ht
  · subst ht; simp
  · calc 80 * c / t ≤ 80 * t / t := Nat.div_le_div_right (Nat.mul_le_mul_left 80 h)
      _ = 80 := Nat.mul_div_cancel 80 ht

lemma multiProgressList (t : ℕ) (cs : List ℕ) (vids : ℕ → String) (m : ℕ) :
    ((multiInitUpdate t :: cs.map (fun c => multiCompletionUpdate t c (vids c)) ++
      [multiCombineUpdate m]).filterMap (fun u => u.progress)) =
      0 :: cs.map (fun c => 80 * c / t) ++ [85] := by
  simp only [List.filterMap_cons, List.filterMap_append, List.filterMap_map]
  have h1 : (multiInitUpdate t).progress = some 0 := rfl
  have h2 : (multiCombineUpdate m).progress = some 85 := rfl
  rw [h1, h2]
  congr 1
  have : ((fun u : JobUpdate => u.progress) ∘ fun c => multiCompletionUpdate t c (vids c)) =
      (some ∘ fun c : ℕ => 80 * c / t) := rfl
  rw [this, List.filterMap_eq_map]

/-- C7. For every job and every update sequence a pipeline run can
apply to it — any single-video run (cut anywhere by an exception, or
completing) and any multi-video run (any reported completion counts, and
a succeeding or failing merge) — the run satisfies the lifecycle
invariant: the status only moves pending → processing → {completed|failed}
and never regresses in rank, the progress is monotonically non-decreasing
throughout, `data` and `error` are both null in every non-terminal state,
and exactly one of them is set, at the terminal transition. -/
theorem job_lifecycle_invariants
    (brands : List String) (n k : ℕ) (failed : Bool) (err : String)
    (t : ℕ) (cs : List ℕ) (vids : ℕ → String) (n_success : ℕ) (ok : Bool) (err2 : String)
    (hcs : List.Chain' (· < ·) cs) (hct : ∀ c ∈ cs, c ≤ t) :
    jobRunInvariant (jobStates (singleTrace brands n k failed err)) ∧
    jobRunInvariant (jobStates (multiTrace t cs vids n_success ok err2)) := by
  have hcreate_data : createJob.data = none := rfl
  have hcreate_err : createJob.error = none := rfl
  have hcreate_rank : statusRank createJob.status ≤ 1 := by simp [createJob, statusRank]
  have hcreate_prog : createJob.progress ≤ 100 := by simp [createJob]
  constructor
  · unfold singleTrace jobStates
    refine jobRunAux _ ?_ _ _ hcreate_data hcreate_err hcreate_rank hcreate_prog
      (fun u hu => singleUpdates_shaped brands n u (List.take_subset k _ hu)) ?_
      (fun p _ => Nat.zero_le p) ?_
    · cases failed
      · exact Or.inl ⟨rfl, rfl, rfl, rfl⟩
      · exact Or.inr ⟨rfl, rfl, rfl, rfl⟩
    · rw [singleProgressList]
      refine List.Chain'.prefix ?_ ( List.take_prefix k _)
      norm_num [List.chain'_cons, List.chain'_singleton]
    · rw [singleProgressList]
      intro p hp
      have hm := List.mem_of_mem_take hp
      simp only [List.mem_cons, List.not_mem_nil, or_false] at hm
      rcases hm with h | h | h | h | h | h | h | h <;> omega
  · unfold multiTrace jobStates
    have hsplit : multiInitUpdate t :: cs.map (fun c => multiCompletionUpdate t c (vids c)) ++
        [multiCombineUpdate n_success,
         if ok then multiCompleteUpdate n_success t else multiFailUpdate err2] =
        (multiInitUpdate t :: cs.map (fun c => multiCompletionUpdate t c (vids c)) ++
          [multiCombineUpdate n_success]) ++
        [if ok then multiCompleteUpdate n_success t else multiFailUpdate err2] := by
      simp
    rw [hsplit]
    refine jobRunAux _ ?_ _ _ hcreate_data hcreate_err hcreate_rank hcreate_prog ?_ ?_
      (fun p _ => Nat.zero_le p) ?_
    · cases ok
      · exact Or.inr ⟨rfl, rfl, rfl, rfl⟩
      · exact Or.inl ⟨rfl, rfl, rfl, rfl⟩
    · intro u hu
      simp only [List.cons_append, List.mem_cons, List.mem_append, List.mem_map,
        List.not_mem_nil, or_false] at hu
      rcases hu with h | ⟨c, _, h⟩ | h
      · subst h; exact ⟨rfl, rfl, rfl, rfl⟩
      · subst h; exact ⟨rfl, rfl, rfl, rfl⟩
      · subst h; exact ⟨rfl, rfl, rfl, rfl⟩
    · rw [multiProgressList]
      refine List.chain'_cons'.mpr ⟨fun y _ => Nat.zero_le y, ?_⟩
      refine List.chain'_append.mpr ⟨?_, List.chain'_singleton _, ?_⟩
      · refine (List.chain'_map _).mpr ?_
        exact hcs.imp (fun a b hab =>
          Nat.div_le_div_right (Nat.mul_le_mul_left 80 (le_of_lt hab)))
      · intro x hx y hy
        simp only [List.head?_cons, Option.mem_def, Option.some.injEq] at hy
        subst hy
        have hx' := List.mem_of_mem_getLast? hx
        obtain ⟨c, hc, hcx⟩ := List.mem_map.mp hx'
        subst hcx
        exact le_trans (pr_le_80 t c (hct c hc)) (by omega)
    · rw [multiProgressList]
      intro p hp
      simp only [List.cons_append, List.mem_cons, List.mem_append, List.mem_map,
        List.not_mem_nil, or_false] at hp
      rcases hp with h | ⟨c, hc, h⟩ | h
      · omega
      · subst h; exact le_trans (pr_le_80 t c (hct c hc)) (by omega)
      · omega

/-- Witness for C7: a concrete single-video run interrupted after four
updates and a concrete three-video run, both from a fresh job. -/
theorem job_lifecycle_invariants_witness :
    List.Chain' (· < ·) ([1, 2, 3] : List ℕ) ∧ (∀ c ∈ ([1, 2, 3] : List ℕ), c ≤ 3) ∧
    (jobRunInvariant (jobStates (singleTrace ["Nike"] 2 4 true "analysis blew up")) ∧
     jobRunInvariant (jobStates (multiTrace 3 [1, 2, 3] (fun _ => "v") 2 true "e"))) :=
  ⟨by norm_num [List.chain'_cons, List.chain'_singleton], by decide,
   job_lifecycle_invariants ["Nike"] 2 4 true "analysis blew up" 3 [1, 2, 3]
     (fun _ => "v") 2 true "e"
     (by norm_num [List.chain'_cons, List.chain'_singleton]) (by decide)⟩

/-- C10 counterexample. `"Nike Team"` contains the blocked keyword
`"team"` as a substring of its lowercased form and also contains the
allow-listed known-brand substring `"nike"`, yet `is_valid_brand` rejects
it: the claim's "unless it also contains a known-brand substring" escape
does not exist — the keyword rejection returns before the allow-list is
consulted. -/
theorem is_valid_brand_allowlist_counterexample :
    "team" ∈ non_brand_keywords ∧
    strContains (pyLower (pyStrip "Nike Team")) "team" = true ∧
    "nike" ∈ known_brands ∧
    strContains (pyLower (pyStrip "Nike Team")) "nike" = true ∧
    is_valid_brand "Nike Team" = false :=
  ⟨by decide, by decide, by decide, by decide, by decide⟩

/-- C10 (amended). The keyword rejection is by substring matching on
the lowercased (stripped) name and is unconditional: any name containing
a blocked keyword anywhere as a substring is rejected, regardless of
whether it also contains a known-brand substring — the whitelist check
runs only after the keyword loop has already returned.  In particular
real commercial brand names such as "Allstate" and "State Farm" (which
contain "state") are rejected. -/
theorem blocked_keyword_always_rejected (name : String)
    (h : non_brand_keywords.any (fun k => strContains (pyLower (pyStrip name)) k) = true) :
    is_valid_brand name = false := by
  simp only [is_valid_brand]
  rw [h]
  simp

/-- Witness for the amended C10 at `"Allstate"` and `"State Farm"`. -/
theorem blocked_keyword_always_rejected_witness :
    (non_brand_keywords.any (fun k => strContains (pyLower (pyStrip "Allstate")) k) = true) ∧
    is_valid_brand "Allstate" = false ∧
    (non_brand_keywords.any (fun k => strContains (pyLower (pyStrip "State Farm")) k) = true) ∧
    is_valid_brand "State Farm" = false :=
  ⟨by decide, blocked_keyword_always_rejected "Allstate" (by decide),
   by decide, blocked_keyword_always_rejected "State Farm" (by decide)⟩

/-- C9 counterexample. An invalid-but-salvageable record (description
too short, category missing) IS retained by the synchronous endpoint's
validation pass (app.py:2163-2178) — but the pass leaves it in the
working detection list unchanged and without any flag, marker or field
recording the degradation: the fidelity warning goes only to the log.
So the record is not surfaced "flagged as a degraded/salvaged record",
refuting that part of the claim. -/
theorem salvage_not_flagged_counterexample :
    validateBrandAppearance salvageableRecord = none ∧
    salvageableRecord.brand.isSome = true ∧
    salvageableRecord.timeline.isSome = true ∧
    processRawDetections [salvageableRecord] = [salvageableRecord] :=
  ⟨by decide, by decide, by decide, by decide⟩

lemma processRawDetections_mono (r : Appearance) :
    ∀ (l : List Appearance) (acc : List Appearance), r ∈ acc →
      r ∈ l.foldl (fun brand_data app =>
        match validateBrandAppearance app with
        | some v => brand_data ++ [v]
        | none =>
          if app.brand.isSome && app.timeline.isSome then brand_data ++ [app]
          else brand_data) acc := by
  intro l
  induction l with
  | nil => intro acc h; exact h
  | cons a l ih =>
    intro acc h
    simp only [List.foldl_cons]
    apply ih
    cases hv : validateBrandAppearance a with
    | some v => exact List.mem_append_left _ h
    | none =>
      by_cases hb : (a.brand.isSome && a.timeline.isSome) = true
      · simp only [hb, if_true]
        exact List.mem_append_left _ h
      · simp only [hb, if_false]
        exact h

/-- C9 (amended). Best-effort salvage without flagging: every raw
record that fails validation but still carries `brand` and `timeline` is
retained by the synchronous endpoint's validation pass
(app.py:2163-2178) in its working detection list rather than discarded,
and the pass itself attaches no degradation flag, marker or field to it
— the only degradation signal is a log warning.  (This is a statement
about the validation pass, not the endpoint's final response: later
aggregation stages mutate records in place, app.py:2213-2217.) -/
theorem salvageable_record_retained (raws : List Appearance) (r : Appearance)
    (hmem : r ∈ raws) (hinvalid : validateBrandAppearance r = none)
    (hb : r.brand.isSome = true) (ht : r.timeline.isSome = true) :
    r ∈ processRawDetections raws := by
  unfold processRawDetections
  obtain ⟨l1, l2, rfl⟩ := List.append_of_mem hmem
  rw [List.foldl_append]
  simp only [List.foldl_cons]
  apply processRawDetections_mono
  rw [hinvalid]
  simp only [hb, ht, Bool.and_self, if_true]
  exact List.mem_append_right _ (by simp)

/-- Witness for the amended C9 at the concrete salvageable record. -/
theorem salvageable_record_retained_witness :
    salvageableRecord ∈ [sampleAppearance, salvageableRecord] ∧
    validateBrandAppearance salvageableRecord = none ∧
    salvageableRecord.brand.isSome = true ∧
    salvageableRecord.timeline.isSome = true ∧
    salvageableRecord ∈ processRawDetections [sampleAppearance, salvageableRecord] :=
  ⟨by decide, by decide, by decide, by decide,
   salvageable_record_retained [sampleAppearance, salvageableRecord] salvageableRecord
     (by decide) (by decide) (by decide) (by decide)⟩

/-- C8 counterexample. The synchronous endpoint does not use the
claimed OR rule: `interviewAppearance` (interview context, primary
prominence, high attention) satisfies the claimed rule yet is counted 0
there, while `replayAppearance` (replay context, background prominence,
low attention) fails the claimed rule yet is counted 1 there. -/
theorem sync_high_impact_counterexample :
    asyncHighImpact interviewAppearance = true ∧
    (buildBrandSummary [interviewAppearance]).map (fun p => p.2.high_impact_moments) = [0] ∧
    asyncHighImpact replayAppearance = false ∧
    (buildBrandSummary [replayAppearance]).map (fun p => p.2.high_impact_moments) = [1] :=
  ⟨by decide, by decide, by decide, by decide⟩

lemma updateBrandData_appearances (app : Appearance) (d : BrandData) :
    (updateBrandData app d).appearances = d.appearances ++ [app] := by
  unfold updateBrandData
  dsimp only
  repeat' split
  all_goals rfl

lemma updateBrandData_high_impact (app : Appearance) (d : BrandData) :
    (updateBrandData app d).high_impact_moments =
      d.high_impact_moments + (if asyncHighImpact app then 1 else 0) := by
  unfold updateBrandData
  dsimp only
  repeat' split
  all_goals simp_all

lemma updateBrandSummary_appearances (app : Appearance) (d : BrandSummaryData) :
    (updateBrandSummary app d).appearances = d.appearances ++ [app] := by
  unfold updateBrandSummary
  dsimp only
  repeat' split
  all_goals rfl

lemma updateBrandSummary_high_impact (app : Appearance) (d : BrandSummaryData) :
    (updateBrandSummary app d).high_impact_moments =
      d.high_impact_moments +
        (if syncHighImpactContexts.contains (app.context.getD "unknown") then 1 else 0) := by
  unfold updateBrandSummary
  dsimp only
  repeat' split
  all_goals simp_all

lemma bdInsert_forall (P : BrandData → Prop) (name : String) (app : Appearance)
    (hupd : ∀ d, P d → P (updateBrandData app d))
    (hinit : P (updateBrandData app initBrandData)) :
    ∀ l, (∀ p ∈ l, P p.2) → ∀ p ∈ bdInsert name app l, P p.2 := by
  intro l
  induction l with
  | nil =>
    intro _ p hp
    simp only [bdInsert, List.mem_singleton] at hp
    subst hp
    exact hinit
  | cons kv rest ih =>
    intro hl p hp
    obtain ⟨k, v⟩ := kv
    simp only [bdInsert] at hp
    by_cases hk : k = name
    · rw [if_pos hk] at hp
      rcases List.mem_cons.mp hp with h | h
      · subst h; exact hupd v (hl (k, v) (by simp))
      · exact hl p (by simp [h])
    · rw [if_neg hk] at hp
      rcases List.mem_cons.mp hp with h | h
      · subst h; exact hl (k, v) (by simp)
      · exact ih (fun q hq => hl q (by simp [hq])) p h

lemma buildBrandData_forall (P : BrandData → Prop)
    (hupd : ∀ app d, P d → P (updateBrandData app d))
    (hinit : ∀ app, P (updateBrandData app initBrandData)) :
    ∀ (raws : List Appearance) (acc : List (String × BrandData)),
      (∀ p ∈ acc, P p.2) → ∀ p ∈ raws.foldl buildBrandDataStep acc, P p.2 := by
  intro raws
  induction raws with
  | nil => exact fun acc h => h
  | cons a raws ih =>
    intro acc h
    simp only [List.foldl_cons]
    apply ih
    unfold buildBrandDataStep
    dsimp only
    split
    · exact h
    · exact bdInsert_forall P _ _ (hupd _) (hinit _) acc h

lemma bsInsert_forall (P : BrandSummaryData → Prop) (name : String) (app : Appearance)
    (hupd : ∀ d, P d → P (updateBrandSummary app d))
    (hinit : P (updateBrandSummary app (initBrandSummaryData name))) :
    ∀ l, (∀ p ∈ l, P p.2) → ∀ p ∈ bsInsert name app l, P p.2 := by
  intro l
  induction l with
  | nil =>
    intro _ p hp
    simp only [bsInsert, List.mem_singleton] at hp
    subst hp
    exact hinit
  | cons kv rest ih =>
    intro hl p hp
    obtain ⟨k, v⟩ := kv
    simp only [bsInsert] at hp
    by_cases hk : k = name
    · rw [if_pos hk] at hp
      rcases List.mem_cons.mp hp with h | h
      · subst h; exact hupd v (hl (k, v) (by simp))
      · exact hl p (by simp [h])
    · rw [if_neg hk] at hp
      rcases List.mem_cons.mp hp with h | h
      · subst h; exact hl (k, v) (by simp)
      · exact ih (fun q hq => hl q (by simp [hq])) p h

lemma buildBrandSummary_forall (P : BrandSummaryData → Prop)
    (hupd : ∀ app d, P d → P (updateBrandSummary app d))
    (hinit : ∀ app name, P (updateBrandSummary app (initBrandSummaryData name))) :
    ∀ (raws : List Appearance) (acc : List (String × BrandSummaryData)),
      (∀ p ∈ acc, P p.2) → ∀ p ∈ raws.foldl buildBrandSummaryStep acc, P p.2 := by
  intro raws
  induction raws with
  | nil => exact fun acc h => h
  | cons a raws ih =>
    intro acc h
    simp only [List.foldl_cons]
    apply ih
    unfold buildBrandSummaryStep
    dsimp only
    exact bsInsert_forall P _ _ (hupd _) (hinit _ _) acc h

/-- C8 (amended). Per brand, the asynchronous job pipeline counts as
high-impact exactly the appearances with context ∈ {celebration,
interview, commercial} OR primary prominence OR high attention; the
synchronous endpoint instead counts exactly the appearances with context
∈ {celebration, replay, game_action} (prominence and attention play no
role there). -/
theorem high_impact_rules (raws : List Appearance) :
    (∀ p ∈ buildBrandData raws,
      p.2.high_impact_moments = p.2.appearances.countP asyncHighImpact) ∧
    (∀ p ∈ buildBrandSummary raws,
      p.2.high_impact_moments = p.2.appearances.countP
        (fun a => syncHighImpactContexts.contains (a.context.getD "unknown"))) := by
  constructor
  · unfold buildBrandData
    refine buildBrandData_forall
      (fun d => d.high_impact_moments = d.appearances.countP asyncHighImpact)
      ?_ ?_ raws [] (by simp)
    · intro app d hd
      rw [updateBrandData_high_impact, updateBrandData_appearances,
        List.countP_append, hd]
      simp [List.countP_cons]
    · intro app
      rw [updateBrandData_high_impact, updateBrandData_appearances]
      simp [initBrandData, List.countP_cons]
  · unfold buildBrandSummary
    refine buildBrandSummary_forall
      (fun d => d.high_impact_moments = d.appearances.countP
        (fun a => syncHighImpactContexts.contains (a.context.getD "unknown")))
      ?_ ?_ raws [] (by simp)
    · intro app d hd
      rw [updateBrandSummary_high_impact, updateBrandSummary_appearances,
        List.countP_append, hd]
      simp [List.countP_cons]
    · intro app name
      rw [updateBrandSummary_high_impact, updateBrandSummary_appearances]
      simp [initBrandSummaryData, List.countP_cons]

/-- C2. Merging an empty sequence of analyses raises the explicit
`"No successful analyses to combine"` error, and a multi-video job in
which every per-video unit failed — whatever the request size and the
completion order — terminates with `status = "failed"` and an error
message, not a partial result. -/
theorem merge_empty_fails (video_ids : List String) (n : ℕ) (completion_order : List ℕ) :
    combine_video_analyses [] video_ids = .error "No successful analyses to combine" ∧
    (runMultiVideoJob (List.replicate n none) completion_order video_ids).status = "failed" ∧
    (runMultiVideoJob (List.replicate n none) completion_order video_ids).data = none ∧
    (runMultiVideoJob (List.replicate n none) completion_order video_ids).error.isSome = true := by
  have hempty : ∀ ids : List String,
      combine_video_analyses [] ids = .error "No successful analyses to combine" := by
    intro ids; rfl
  have hcol : collectIndividualAnalyses (List.replicate n none) completion_order = [] := by
    unfold collectIndividualAnalyses
    refine List.filterMap_eq_nil_iff.mpr ?_
    intro i _
    rcases Nat.lt_or_ge i n with h | h
    · simp [List.getD_eq_getElem?_getD, List.getElem?_replicate, h]
    · simp [List.getD_eq_getElem?_getD, List.getElem?_replicate, Nat.not_lt.mpr h]
  refine ⟨hempty video_ids, ?_, ?_, ?_⟩ <;>
    simp [runMultiVideoJob, hcol, hempty video_ids]

lemma buildBrandData_ne_nil (raws : List Appearance) :
    ∀ p ∈ buildBrandData raws, p.2.appearances ≠ [] := by
  unfold buildBrandData
  refine buildBrandData_forall (fun d => d.appearances ≠ []) ?_ ?_ raws [] (by simp)
  · intro app d _
    rw [updateBrandData_appearances]
    simp
  · intro app
    rw [updateBrandData_appearances]
    simp

lemma computeBrandMetrics_ok_forall (oracle : Oracle) (dur : ℚ) :
    ∀ (l : List (String × BrandData)) (ms : List BrandMetric),
      computeBrandMetrics oracle dur l = .ok ms →
      ∀ p ∈ l, exceptIsOk (brandMetricFor oracle dur p.1 p.2) = true := by
  intro l
  induction l with
  | nil => intro ms _ p hp; simp at hp
  | cons q rest ih =>
    intro ms hok p hp
    obtain ⟨name, d⟩ := q
    simp only [computeBrandMetrics] at hok
    cases hbm : brandMetricFor oracle dur name d with
    | error e => rw [hbm] at hok; exact absurd hok (by simp)
    | ok m =>
      rw [hbm] at hok
      cases hrest : computeBrandMetrics oracle dur rest with
      | error e => rw [hrest] at hok; exact absurd hok (by simp)
      | ok ms' =>
        rcases List.mem_cons.mp hp with h | h
        · subst h; simp [exceptIsOk, hbm]
        · exact ih ms' hrest p h

/-- C5. A failed external enrichment/scoring call for any brand of a
single-video analysis is fatal: the scoring function itself returns no
numeric fallback (it fails), and the whole job ends `failed` with an
error and no result payload — no partial metrics for the other brands. -/
theorem enrichment_failure_fails_job
    (oracle : Oracle) (raws : List Appearance) (video_duration : ℚ)
    (video_id : String) (selected : List String) (entry : String × BrandData)
    (hmem : entry ∈ buildBrandData raws) (hfail : oracle entry.1 = none) :
    exceptIsOk (calculate_ai_contextual_score oracle entry.2.appearances
      video_duration entry.1) = false ∧
    (runSingleVideoJob oracle raws video_duration video_id selected).status = "failed" ∧
    (runSingleVideoJob oracle raws video_duration video_id selected).data = none ∧
    (runSingleVideoJob oracle raws video_duration video_id selected).error.isSome = true := by
  have hne : entry.2.appearances ≠ [] := buildBrandData_ne_nil raws entry hmem
  have hcalc : calculate_ai_contextual_score oracle entry.2.appearances
      video_duration entry.1 =
      .error "AI analysis is required for comprehensive brand placement insights." := by
    unfold calculate_ai_contextual_score
    rw [if_neg (by simpa [List.isEmpty_iff] using hne), hfail]
  have hbm : exceptIsOk (brandMetricFor oracle video_duration entry.1 entry.2) = false := by
    unfold brandMetricFor
    rw [hcalc]
    rfl
  have hcm : ∀ ms, computeBrandMetrics oracle video_duration (buildBrandData raws) ≠ .ok ms := by
    intro ms hok
    have hall := computeBrandMetrics_ok_forall oracle video_duration _ ms hok entry hmem
    rw [hbm] at hall
    exact absurd hall (by simp)
  cases hc : computeBrandMetrics oracle video_duration (buildBrandData raws) with
  | ok ms => exact absurd hc (hcm ms)
  | error e =>
    refine ⟨by rw [hcalc]; rfl, ?_, ?_, ?_⟩ <;>
      simp [runSingleVideoJob, runSingleVideoAnalysis, hc]

/-- Witness for C5: a concrete always-failing oracle on a one-appearance
detection list. -/
theorem enrichment_failure_fails_job_witness :
    ((buildBrandData [minimalAppearance]).getD 0 ("", initBrandData)
      ∈ buildBrandData [minimalAppearance]) ∧
    ((fun _ => none : Oracle)
      ((buildBrandData [minimalAppearance]).getD 0 ("", initBrandData)).1 = none) ∧
    (exceptIsOk (calculate_ai_contextual_score (fun _ => none)
      ((buildBrandData [minimalAppearance]).getD 0 ("", initBrandData)).2.appearances 300
      ((buildBrandData [minimalAppearance]).getD 0 ("", initBrandData)).1) = false ∧
     (runSingleVideoJob (fun _ => none) [minimalAppearance] 300 "vid1" ["Nike"]).status = "failed" ∧
     (runSingleVideoJob (fun _ => none) [minimalAppearance] 300 "vid1" ["Nike"]).data = none ∧
     (runSingleVideoJob (fun _ => none) [minimalAppearance] 300 "vid1" ["Nike"]).error.isSome = true) :=
  ⟨by decide, rfl,
   enrichment_failure_fails_job (fun _ => none) [minimalAppearance] 300 "vid1" ["Nike"]
     ((buildBrandData [minimalAppearance]).getD 0 ("", initBrandData)) (by decide) rfl⟩

lemma offsetAppearance_ok (off : ℚ) (a : Appearance)
    (h : timelineOffsettable a = true) :
    ∃ a', offsetAppearance off a = .ok a' := by
  unfold timelineOffsettable at h
  unfold offsetAppearance
  cases htl : a.timeline with
  | none => exact ⟨a, rfl⟩
  | some l =>
    cases l with
    | nil => exact ⟨a, rfl⟩
    | cons x xs =>
      cases xs with
      | nil => rw [htl] at h; exact Bool.noConfusion h
      | cons y ys => exact ⟨_, rfl⟩

lemma offsetAppearances_ok (off : ℚ) :
    ∀ (l : List Appearance), l.all timelineOffsettable = true →
      ∃ l', offsetAppearances off l = .ok l' := by
  intro l
  induction l with
  | nil => exact fun _ => ⟨[], rfl⟩
  | cons a rest ih =>
    intro h
    simp only [List.all_cons, Bool.and_eq_true] at h
    obtain ⟨a', ha'⟩ := offsetAppearance_ok off a h.1
    obtain ⟨rest', hrest'⟩ := ih h.2
    exact ⟨a' :: rest', by unfold offsetAppearances; rw [ha', hrest']⟩

lemma combineMetricStep_ok (off : ℚ) (c : List (String × CombinedMetric)) (bm : BrandMetric)
    (h1 : bm.appearances.all timelineOffsettable = true)
    (h2 : bm.ad_placements.all timelineOffsettable = true)
    (h3 : bm.in_game_placements.all timelineOffsettable = true) :
    ∃ c', combineMetricStep off c bm = .ok c' := by
  obtain ⟨l1, hl1⟩ := offsetAppearances_ok off bm.appearances h1
  obtain ⟨l2, hl2⟩ := offsetAppearances_ok off bm.ad_placements h2
  obtain ⟨l3, hl3⟩ := offsetAppearances_ok off bm.in_game_placements h3
  exact ⟨_, by unfold combineMetricStep; rw [hl1, hl2, hl3]⟩

lemma combineMetricsFold_ok (off : ℚ) :
    ∀ (bms : List BrandMetric) (c : List (String × CombinedMetric)),
      (∀ bm ∈ bms, bm.appearances.all timelineOffsettable = true ∧
        bm.ad_placements.all timelineOffsettable = true ∧
        bm.in_game_placements.all timelineOffsettable = true) →
      ∃ c', combineMetricsFold off c bms = .ok c' := by
  intro bms
  induction bms with
  | nil => exact fun c _ => ⟨c, rfl⟩
  | cons bm rest ih =>
    intro c h
    obtain ⟨h1, h2, h3⟩ := h bm (by simp)
    obtain ⟨c1, hc1⟩ := combineMetricStep_ok off c bm h1 h2 h3
    obtain ⟨c', hc'⟩ := ih c1 (fun b hb => h b (by simp [hb]))
    exact ⟨c', by unfold combineMetricsFold; rw [hc1]; exact hc'⟩

lemma combineStep_ok (st : CombineState) (a : Analysis)
    (hoff : analysisOffsettable a = true) :
    ∃ st', combineStep st a = .ok st' := by
  unfold analysisOffsettable at hoff
  rw [Bool.and_eq_true] at hoff
  obtain ⟨hrd, hms⟩ := hoff
  obtain ⟨rd, hrdE⟩ :=
    offsetAppearances_ok st.cumulative_duration_seconds a.raw_detections hrd
  have hforall : ∀ bm ∈ a.brand_metrics,
      bm.appearances.all timelineOffsettable = true ∧
      bm.ad_placements.all timelineOffsettable = true ∧
      bm.in_game_placements.all timelineOffsettable = true := by
    intro bm hbm
    have hb := List.all_eq_true.mp hms bm hbm
    simp only [Bool.and_eq_true] at hb
    exact ⟨hb.1.1, hb.1.2, hb.2⟩
  obtain ⟨cmb, hcmbE⟩ := combineMetricsFold_ok st.cumulative_duration_seconds
    a.brand_metrics st.combined hforall
  exact ⟨_, by unfold combineStep; rw [hrdE, hcmbE]⟩

lemma combineStep_ok_inv (st : CombineState) (a : Analysis) (st' : CombineState)
    (h : combineStep st a = .ok st') :
    combineMetricsFold st.cumulative_duration_seconds st.combined a.brand_metrics =
      .ok st'.combined ∧
    st'.videos_analyzed = st.videos_analyzed ++
      [{ video_id := a.video_id,
         filename := "Video " ++ strTake a.video_id 8,
         duration_minutes := a.summary.video_duration_minutes,
         start_time_seconds := st.cumulative_duration_seconds,
         end_time_seconds := st.cumulative_duration_seconds +
           a.summary.video_duration_minutes * 60 }] := by
  unfold combineStep at h
  cases h1 : offsetAppearances st.cumulative_duration_seconds a.raw_detections with
  | error e => rw [h1] at h; exact absurd h (by simp)
  | ok od =>
    rw [h1] at h
    cases h2 : combineMetricsFold st.cumulative_duration_seconds st.combined
        a.brand_metrics with
    | error e => rw [h2] at h; exact absurd h (by simp)
    | ok cmb =>
      rw [h2] at h
      have h3 := Except.ok.inj h
      rw [← h3]
      exact ⟨rfl, rfl⟩

lemma combineFold_ok_videos_ids :
    ∀ (l : List Analysis) (st : CombineState),
      (∀ a ∈ l, analysisOffsettable a = true) →
      ∃ st', combineFold st l = .ok st' ∧
        st'.videos_analyzed.map (fun w => w.video_id) =
          st.videos_analyzed.map (fun w => w.video_id) ++ l.map (fun a => a.video_id) := by
  intro l
  induction l with
  | nil => exact fun st _ => ⟨st, rfl, by simp⟩
  | cons a l ih =>
    intro st h
    obtain ⟨st1, hst1⟩ := combineStep_ok st a (h a (by simp))
    obtain ⟨_, hva⟩ := combineStep_ok_inv st a st1 hst1
    obtain ⟨st', hst', hids⟩ := ih st1 (fun b hb => h b (by simp [hb]))
    refine ⟨st', by unfold combineFold; rw [hst1]; exact hst', ?_⟩
    rw [hids, hva]
    simp [List.map_append]

/-- C6 counterexample. Three requested videos with exactly one failed
unit, yet the job ends `failed`, not `completed`: the first successful
payload carries a detection whose timeline has a single element, so the
merge's offset rewrite raises `IndexError` (app.py:1687-1690) and the
whole job fails — the orchestrator's best-effort tolerance of failed
units does not survive a malformed successful payload. -/
theorem partial_success_counterexample :
    timelineOffsettable minimalAppearance = false ∧
    analysisOffsettable (sampleAnalysis "v1" minimalAppearance) = false ∧
    (runMultiVideoJob
      [some (sampleAnalysis "v1" minimalAppearance), none,
       some (sampleAnalysis "v3" sampleAppearanceB)] [0, 1, 2]
      ["v1", "v2", "v3"]).status = "failed" ∧
    (runMultiVideoJob
      [some (sampleAnalysis "v1" minimalAppearance), none,
       some (sampleAnalysis "v3" sampleAppearanceB)] [0, 1, 2]
      ["v1", "v2", "v3"]).data = none ∧
    (runMultiVideoJob
      [some (sampleAnalysis "v1" minimalAppearance), none,
       some (sampleAnalysis "v3" sampleAppearanceB)] [0, 1, 2]
      ["v1", "v2", "v3"]).error = some "list index out of range" := by
  refine ⟨rfl, rfl, rfl, rfl, rfl⟩

/-- C6 (amended). Three requested videos, exactly one failing unit,
and every successful payload offsettable (each timeline it carries is
absent, empty, or has at least two endpoints — otherwise the merge
raises): for every completion order, the merge receives exactly the two
successful results (as a permutation of them), the job terminates
`completed`, and the failed video's id does not appear in the combined
summary's `videos_analyzed`. -/
theorem partial_success_still_completes
    (a1 a3 : Analysis) (failed_id : String) (completion_order : List ℕ)
    (video_ids : List String)
    (hperm : completion_order.Perm [0, 1, 2])
    (hoff1 : analysisOffsettable a1 = true) (hoff3 : analysisOffsettable a3 = true)
    (hid1 : failed_id ≠ a1.video_id) (hid3 : failed_id ≠ a3.video_id) :
    (collectIndividualAnalyses [some a1, none, some a3] completion_order).Perm [a1, a3] ∧
    (runMultiVideoJob [some a1, none, some a3] completion_order video_ids).status =
      "completed" ∧
    failed_id ∉ jobVideosAnalyzedIds
      (runMultiVideoJob [some a1, none, some a3] completion_order video_ids) := by
  have hcol : (collectIndividualAnalyses [some a1, none, some a3] completion_order).Perm
      [a1, a3] := by
    unfold collectIndividualAnalyses
    have h := hperm.filterMap
      (fun i => ([some a1, none, some a3] : List (Option Analysis)).getD i none)
    have h2 : ([0, 1, 2] : List ℕ).filterMap
        (fun i => ([some a1, none, some a3] : List (Option Analysis)).getD i none) =
        [a1, a3] := rfl
    rw [h2] at h
    exact h
  have hne : collectIndividualAnalyses [some a1, none, some a3] completion_order ≠ [] := by
    intro h0
    have hlen := hcol.length_eq
    rw [h0] at hlen
    simp at hlen
  have hall : ∀ a ∈ collectIndividualAnalyses [some a1, none, some a3] completion_order,
      analysisOffsettable a = true := by
    intro a ha
    have hmem := hcol.mem_iff.mp ha
    simp only [List.mem_cons, List.not_mem_nil, or_false] at hmem
    rcases hmem with h | h
    · rw [h]; exact hoff1
    · rw [h]; exact hoff3
  obtain ⟨stF, hstF, hids⟩ := combineFold_ok_videos_ids
    (collectIndividualAnalyses [some a1, none, some a3] completion_order)
    initCombineState hall
  cases hcmb : combine_video_analyses
      (collectIndividualAnalyses [some a1, none, some a3] completion_order) video_ids with
  | error e =>
    unfold combine_video_analyses at hcmb
    rw [if_neg (by simpa [List.isEmpty_iff] using hne), hstF] at hcmb
    exact absurd hcmb (by simp)
  | ok r =>
    have hva : r.combined_summary.videos_analyzed.map (fun w => w.video_id) =
        (collectIndividualAnalyses [some a1, none, some a3] completion_order).map
          (fun a => a.video_id) := by
      unfold combine_video_analyses at hcmb
      rw [if_neg (by simpa [List.isEmpty_iff] using hne), hstF] at hcmb
      have hrec := Except.ok.inj hcmb
      calc r.combined_summary.videos_analyzed.map (fun w => w.video_id)
          = stF.videos_analyzed.map (fun w => w.video_id) := by rw [← hrec]
        _ = _ := by simpa [initCombineState] using hids
    refine ⟨hcol, ?_, ?_⟩
    · simp [runMultiVideoJob, hcmb]
    · simp only [jobVideosAnalyzedIds, runMultiVideoJob, hcmb]
      rw [hva]
      intro hmem'
      have hmem2 := (hcol.map (fun a => a.video_id)).mem_iff.mp hmem'
      simp only [List.map_cons, List.map_nil, List.mem_cons, List.not_mem_nil,
        or_false] at hmem2
      rcases hmem2 with h | h
      · exact hid1 h
      · exact hid3 h

/-- Witness for the amended C6: videos v1, v2, v3 with v2 failing,
completing in the order v3, v1, v2, both successful payloads
offsettable. -/
theorem partial_success_still_completes_witness :
    (([2, 0, 1] : List ℕ).Perm [0, 1, 2]) ∧
    analysisOffsettable (sampleAnalysis "v1" sampleAppearance) = true ∧
    analysisOffsettable (sampleAnalysis "v3" sampleAppearanceB) = true ∧
    ("v2" ≠ (sampleAnalysis "v1" sampleAppearance).video_id) ∧
    ("v2" ≠ (sampleAnalysis "v3" sampleAppearanceB).video_id) ∧
    ((collectIndividualAnalyses
        [some (sampleAnalysis "v1" sampleAppearance), none,
         some (sampleAnalysis "v3" sampleAppearanceB)] [2, 0, 1]).Perm
      [sampleAnalysis "v1" sampleAppearance, sampleAnalysis "v3" sampleAppearanceB] ∧
     (runMultiVideoJob
        [some (sampleAnalysis "v1" sampleAppearance), none,
         some (sampleAnalysis "v3" sampleAppearanceB)] [2, 0, 1]
        ["v1", "v2", "v3"]).status = "completed" ∧
     "v2" ∉ jobVideosAnalyzedIds
       (runMultiVideoJob
         [some (sampleAnalysis "v1" sampleAppearance), none,
          some (sampleAnalysis "v3" sampleAppearanceB)] [2, 0, 1]
         ["v1", "v2", "v3"])) :=
  ⟨by decide, by decide, by decide, by decide, by decide,
   partial_success_still_completes (sampleAnalysis "v1" sampleAppearance)
     (sampleAnalysis "v3" sampleAppearanceB) "v2" [2, 0, 1] ["v1", "v2", "v3"]
     (by decide) (by decide) (by decide) (by decide) (by decide)⟩

/-- C3 (code refutation). Cumulative timeline offsets follow the
COMPLETION order, not the requested order: for the same two requested
600-second videos (v1's Nike appearance at `[10, 20]`, v2's at `[5, 15]`),
completion order v1-then-v2 yields offset appearances
`[10, 20], [605, 615]`, while completion order v2-then-v1 yields
`[5, 15], [610, 620]` — v1's appearances are offset by v2's duration,
though v1 was requested first.  The orchestrator appends `as_completed`
results (app.py:1598-1606); the merge's own comment claims selection
order (app.py:1669). -/
theorem completion_order_determines_offsets :
    (combinedMetricsOf (combine_video_analyses
      (collectIndividualAnalyses
        [some (sampleAnalysis "v1" sampleAppearance),
         some (sampleAnalysis "v2" sampleAppearanceB)] [0, 1]) ["v1", "v2"])).map
      (fun m => m.appearances.map (fun a => a.timeline)) =
      [[some [10, 20], some [605, 615]]] ∧
    (combinedMetricsOf (combine_video_analyses
      (collectIndividualAnalyses
        [some (sampleAnalysis "v1" sampleAppearance),
         some (sampleAnalysis "v2" sampleAppearanceB)] [1, 0]) ["v1", "v2"])).map
      (fun m => m.appearances.map (fun a => a.timeline)) =
      [[some [5, 15], some [610, 620]]] := by
  have hcol1 : collectIndividualAnalyses
      [some (sampleAnalysis "v1" sampleAppearance),
       some (sampleAnalysis "v2" sampleAppearanceB)] [0, 1] =
      [sampleAnalysis "v1" sampleAppearance, sampleAnalysis "v2" sampleAppearanceB] := rfl
  have hcol2 : collectIndividualAnalyses
      [some (sampleAnalysis "v1" sampleAppearance),
       some (sampleAnalysis "v2" sampleAppearanceB)] [1, 0] =
      [sampleAnalysis "v2" sampleAppearanceB, sampleAnalysis "v1" sampleAppearance] := rfl
  constructor
  · rw [hcol1]
    norm_num [combine_video_analyses, combineFold, combineStep, combineMetricsFold,
      combineMetricStep, offsetAppearances, initCombineState,
      cmUpsert, mergeMetricInto, initCombinedMetric, offsetAppearance, combinePostProcess,
      collectScores, listMean, sentimentLabelOf, ctxUnion, combinedMetricsOf,
      sampleAnalysis, sampleMetric, sampleAppearance, sampleAppearanceB, strTake]
  · rw [hcol2]
    norm_num [combine_video_analyses, combineFold, combineStep, combineMetricsFold,
      combineMetricStep, offsetAppearances, initCombineState,
      cmUpsert, mergeMetricInto, initCombinedMetric, offsetAppearance, combinePostProcess,
      collectScores, listMean, sentimentLabelOf, ctxUnion, combinedMetricsOf,
      sampleAnalysis, sampleMetric, sampleAppearance, sampleAppearanceB, strTake]

/-- C1. Merging two single-video analyses, each 600 seconds
(10 minutes) long and offsettable (no timeline they carry has exactly
one element, so the merge's offset rewrite cannot raise), where a brand
has one appearance timed `[10, 20]` in the first video and one timed
`[5, 15]` in the second, produces for that brand exactly the two
appearances timed `[10, 20]` and `[605, 615]`, with
`total_appearances = 2` and `total_exposure_time = 20` — and no other
brand entry. -/
theorem merge_two_singles_offsets_and_totals
    (A1 A2 : Analysis) (m1 m2 : BrandMetric) (a1 a2 : Appearance)
    (b : String) (video_ids : List String)
    (hd1 : A1.summary.video_duration_minutes = 10)
    (hd2 : A2.summary.video_duration_minutes = 10)
    (hm1 : A1.brand_metrics = [m1]) (hm2 : A2.brand_metrics = [m2])
    (hb1 : m1.brand = b) (hb2 : m2.brand = b)
    (ha1 : m1.appearances = [a1]) (ha2 : m2.appearances = [a2])
    (ht1 : a1.timeline = some [10, 20]) (ht2 : a2.timeline = some [5, 15])
    (he1 : m1.total_exposure_time = 10) (he2 : m2.total_exposure_time = 10)
    (hn1 : m1.total_appearances = 1) (hn2 : m2.total_appearances = 1)
    (hoff1 : analysisOffsettable A1 = true) (hoff2 : analysisOffsettable A2 = true) :
    (combinedMetricsOf (combine_video_analyses [A1, A2] video_ids)).map
      (fun m => (m.brand, m.appearances.map (fun a => a.timeline),
                 m.total_appearances, m.total_exposure_time)) =
      [(b, [some [10, 20], some [605, 615]], 2, 20)] := by
  have h1 := hoff1
  have h2 := hoff2
  unfold analysisOffsettable at h1 h2
  rw [hm1] at h1
  rw [hm2] at h2
  simp only [List.all_cons, List.all_nil, Bool.and_true, Bool.and_eq_true] at h1 h2
  obtain ⟨hr1, ⟨happ1, had1⟩, hig1⟩ := h1
  obtain ⟨hr2, ⟨happ2, had2⟩, hig2⟩ := h2
  obtain ⟨rd1, hrd1⟩ := offsetAppearances_ok 0 A1.raw_detections hr1
  obtain ⟨rd2, hrd2⟩ := offsetAppearances_ok 600 A2.raw_detections hr2
  obtain ⟨ad1, hadE1⟩ := offsetAppearances_ok 0 m1.ad_placements had1
  obtain ⟨ig1, higE1⟩ := offsetAppearances_ok 0 m1.in_game_placements hig1
  obtain ⟨ad2, hadE2⟩ := offsetAppearances_ok 600 m2.ad_placements had2
  obtain ⟨ig2, higE2⟩ := offsetAppearances_ok 600 m2.in_game_placements hig2
  norm_num [combine_video_analyses, combineFold, combineStep, combineMetricsFold,
    combineMetricStep, initCombineState, cmUpsert,
    mergeMetricInto, initCombinedMetric, offsetAppearances, offsetAppearance,
    combinePostProcess, collectScores, listMean, sentimentLabelOf, ctxUnion,
    combinedMetricsOf, hrd1, hrd2, hadE1, higE1, hadE2, higE2,
    hd1, hd2, hm1, hm2, hb1, hb2, ha1, ha2, ht1, ht2, he1, he2, hn1, hn2]

/-- Witness for C1 at the concrete sample analyses. -/
theorem merge_two_singles_offsets_and_totals_witness :
    (sampleAnalysis "v1" sampleAppearance).summary.video_duration_minutes = 10 ∧
    (sampleMetric sampleAppearance).brand = "Nike" ∧
    (sampleMetric sampleAppearance).appearances = [sampleAppearance] ∧
    sampleAppearance.timeline = some [10, 20] ∧
    sampleAppearanceB.timeline = some [5, 15] ∧
    (combinedMetricsOf (combine_video_analyses
      [sampleAnalysis "v1" sampleAppearance, sampleAnalysis "v2" sampleAppearanceB]
      ["v1", "v2"])).map
      (fun m => (m.brand, m.appearances.map (fun a => a.timeline),
                 m.total_appearances, m.total_exposure_time)) =
      [("Nike", [some [10, 20], some [605, 615]], 2, 20)] :=
  ⟨rfl, rfl, rfl, rfl, rfl,
   merge_two_singles_offsets_and_totals
     (sampleAnalysis "v1" sampleAppearance) (sampleAnalysis "v2" sampleAppearanceB)
     (sampleMetric sampleAppearance) (sampleMetric sampleAppearanceB)
     sampleAppearance sampleAppearanceB "Nike" ["v1", "v2"]
     rfl rfl rfl rfl rfl rfl rfl rfl rfl rfl rfl rfl rfl rfl (by decide) (by decide)⟩

lemma collectScores_inner (name : String) (f : BrandMetric → ℚ) :
    ∀ (bms : List BrandMetric) (acc : List ℚ),
      bms.foldl (fun acc bm => if bm.brand = name then acc ++ [f bm] else acc) acc =
        acc ++ (bms.filter (fun bm => bm.brand = name)).map f := by
  intro bms
  induction bms with
  | nil => intro acc; simp
  | cons bm bms ih =>
    intro acc
    simp only [List.foldl_cons, List.filter_cons]
    by_cases h : bm.brand = name
    · rw [if_pos h, ih]
      simp [h]
    · rw [if_neg h, ih]
      simp [h]

lemma collectScores_eq (individual_analyses : List Analysis) (name : String)
    (f : BrandMetric → ℚ) :
    collectScores individual_analyses name f =
      (contributingMetrics individual_analyses name).map f := by
  unfold collectScores contributingMetrics
  suffices h : ∀ (ls : List Analysis) (acc : List ℚ),
      ls.foldl (fun acc analysis =>
        analysis.brand_metrics.foldl
          (fun acc bm => if bm.brand = name then acc ++ [f bm] else acc) acc) acc =
        acc ++ (((ls.map Analysis.brand_metrics).flatten).filter
          (fun bm => bm.brand = name)).map f by
    simpa using h individual_analyses []
  intro ls
  induction ls with
  | nil => intro acc; simp
  | cons a ls ih =>
    intro acc
    simp only [List.foldl_cons, List.map_cons, List.flatten_cons, List.filter_append,
      List.map_append]
    rw [collectScores_inner, ih]
    simp [List.append_assoc]

lemma cmUpsert_forall_brand (name : String) (fn : CombinedMetric → CombinedMetric)
    (hf : ∀ cm, (fn cm).brand = cm.brand) :
    ∀ l, (∀ p ∈ l, p.2.brand = p.1) → ∀ p ∈ cmUpsert name fn l, p.2.brand = p.1 := by
  intro l
  induction l with
  | nil =>
    intro _ p hp
    simp only [cmUpsert, List.mem_singleton] at hp
    subst hp
    rw [hf]
    rfl
  | cons kv rest ih =>
    intro hl p hp
    obtain ⟨k, v⟩ := kv
    simp only [cmUpsert] at hp
    by_cases hk : k = name
    · rw [if_pos hk] at hp
      rcases List.mem_cons.mp hp with h | h
      · subst h
        rw [hf]
        exact hl (k, v) (by simp)
      · exact hl p (by simp [h])
    · rw [if_neg hk] at hp
      rcases List.mem_cons.mp hp with h | h
      · subst h; exact hl (k, v) (by simp)
      · exact ih (fun q hq => hl q (by simp [hq])) p h

lemma combineMetricStep_forall_brand (off : ℚ) (c : List (String × CombinedMetric))
    (bm : BrandMetric) (c' : List (String × CombinedMetric))
    (h : combineMetricStep off c bm = .ok c')
    (hc : ∀ p ∈ c, p.2.brand = p.1) : ∀ p ∈ c', p.2.brand = p.1 := by
  unfold combineMetricStep at h
  cases h1 : offsetAppearances off bm.appearances with
  | error e => rw [h1] at h; exact absurd h (by simp)
  | ok l1 =>
    rw [h1] at h
    cases h2 : offsetAppearances off bm.ad_placements with
    | error e => rw [h2] at h; exact absurd h (by simp)
    | ok l2 =>
      rw [h2] at h
      cases h3 : offsetAppearances off bm.in_game_placements with
      | error e => rw [h3] at h; exact absurd h (by simp)
      | ok l3 =>
        rw [h3] at h
        have h4 := Except.ok.inj h
        rw [← h4]
        exact cmUpsert_forall_brand bm.brand
          (fun cm => mergeMetricInto l1 l2 l3 cm bm) (fun cm => rfl) c hc

lemma combineMetricsFold_forall_brand (off : ℚ) :
    ∀ (bms : List BrandMetric) (c c' : List (String × CombinedMetric)),
      combineMetricsFold off c bms = .ok c' →
      (∀ p ∈ c, p.2.brand = p.1) → ∀ p ∈ c', p.2.brand = p.1 := by
  intro bms
  induction bms with
  | nil =>
    intro c c' h hc
    unfold combineMetricsFold at h
    rw [← Except.ok.inj h]
    exact hc
  | cons bm rest ih =>
    intro c c' h hc
    unfold combineMetricsFold at h
    cases h1 : combineMetricStep off c bm with
    | error e => rw [h1] at h; exact absurd h (by simp)
    | ok c1 =>
      rw [h1] at h
      exact ih c1 c' h (combineMetricStep_forall_brand off c bm c1 h1 hc)

lemma combineFold_forall_brand :
    ∀ (l : List Analysis) (st st' : CombineState),
      combineFold st l = .ok st' →
      (∀ p ∈ st.combined, p.2.brand = p.1) → ∀ p ∈ st'.combined, p.2.brand = p.1 := by
  intro l
  induction l with
  | nil =>
    intro st st' h hst
    unfold combineFold at h
    rw [← Except.ok.inj h]
    exact hst
  | cons a l ih =>
    intro st st' h hst
    unfold combineFold at h
    cases h1 : combineStep st a with
    | error e => rw [h1] at h; exact absurd h (by simp)
    | ok st1 =>
      rw [h1] at h
      exact ih st1 st' h
        (combineMetricsFold_forall_brand st.cumulative_duration_seconds
          a.brand_metrics st.combined st1.combined
          (combineStep_ok_inv st a st1 h1).1 hst)

lemma combinePostProcess_brand (individual_analyses : List Analysis)
    (entry : String × CombinedMetric) :
    (combinePostProcess individual_analyses entry).brand = entry.2.brand := by
  unfold combinePostProcess
  dsimp only
  repeat' split
  all_goals rfl

lemma combinePostProcess_total_appearances (individual_analyses : List Analysis)
    (entry : String × CombinedMetric) :
    (combinePostProcess individual_analyses entry).total_appearances =
      entry.2.total_appearances := by
  unfold combinePostProcess
  dsimp only
  repeat' split
  all_goals rfl

lemma combinePostProcess_fields (individual_analyses : List Analysis)
    (entry : String × CombinedMetric) (hpos : 0 < entry.2.total_appearances) :
    (combinePostProcess individual_analyses entry).contextual_value_score =
      listMean (collectScores individual_analyses entry.1
        (fun bm => bm.contextual_value_score)) ∧
    (combinePostProcess individual_analyses entry).sentiment_score =
      listMean (collectScores individual_analyses entry.1 (fun bm => bm.sentiment_score)) ∧
    (combinePostProcess individual_analyses entry).avg_prominence =
      listMean (collectScores individual_analyses entry.1 (fun bm => bm.avg_prominence)) ∧
    (combinePostProcess individual_analyses entry).avg_viewer_attention =
      listMean (collectScores individual_analyses entry.1
        (fun bm => bm.avg_viewer_attention)) ∧
    (combinePostProcess individual_analyses entry).sentiment_label =
      some (sentimentLabelOf (listMean (collectScores individual_analyses entry.1
        (fun bm => bm.sentiment_score)))) := by
  unfold combinePostProcess
  dsimp only
  rw [if_pos hpos]
  split
  all_goals exact ⟨rfl, rfl, rfl, rfl, rfl⟩

lemma getD_zero_mem {α : Type} (l : List α) (d : α) (h : l ≠ []) : l.getD 0 d ∈ l := by
  cases l with
  | nil => exact absurd rfl h
  | cons a l => simp [List.getD]

/-- C4. After a merge, every combined brand entry with at least one
appearance carries `contextual_value_score`, `sentiment_score`,
`avg_prominence` and `avg_viewer_attention` equal to the arithmetic mean
of those fields over exactly the per-video metrics of the videos where
that brand appears (the metrics records bearing its name across the
individual analyses — 2 of 3 videos means averaging over exactly those
2), and its `sentiment_label` is recomputed from the merged
`sentiment_score` by the > 0.1 / < −0.1 thresholds. -/
theorem merge_recomputes_scores_as_means
    (individual_analyses : List Analysis) (video_ids : List String)
    (m : CombinedMetric)
    (hm : m ∈ combinedMetricsOf (combine_video_analyses individual_analyses video_ids))
    (hpos : 0 < m.total_appearances) :
    m.contextual_value_score = listMean ((contributingMetrics individual_analyses
      m.brand).map (fun bm => bm.contextual_value_score)) ∧
    m.sentiment_score = listMean ((contributingMetrics individual_analyses
      m.brand).map (fun bm => bm.sentiment_score)) ∧
    m.avg_prominence = listMean ((contributingMetrics individual_analyses
      m.brand).map (fun bm => bm.avg_prominence)) ∧
    m.avg_viewer_attention = listMean ((contributingMetrics individual_analyses
      m.brand).map (fun bm => bm.avg_viewer_attention)) ∧
    m.sentiment_label = some (sentimentLabelOf m.sentiment_score) := by
  by_cases hne : individual_analyses.isEmpty
  · have hrw : combinedMetricsOf (combine_video_analyses individual_analyses video_ids) =
        [] := by
      unfold combine_video_analyses
      rw [if_pos hne]
      rfl
    rw [hrw] at hm
    simp at hm
  · cases hcf : combineFold initCombineState individual_analyses with
    | error e =>
      have hrw : combinedMetricsOf (combine_video_analyses individual_analyses video_ids) =
          [] := by
        unfold combine_video_analyses
        rw [if_neg hne, hcf]
        rfl
      rw [hrw] at hm
      simp at hm
    | ok stF =>
    have hrw : combinedMetricsOf (combine_video_analyses individual_analyses video_ids) =
        (stF.combined.map (combinePostProcess individual_analyses)).mergeSort
          (fun a b => b.total_exposure_time ≤ a.total_exposure_time) := by
      unfold combine_video_analyses
      rw [if_neg hne, hcf]
      rfl
    rw [hrw] at hm
    have hm3 := (List.mergeSort_perm _ _).mem_iff.mp hm
    obtain ⟨entry, hentry, hpp⟩ := List.mem_map.mp hm3
    have hkey : entry.2.brand = entry.1 :=
      combineFold_forall_brand individual_analyses initCombineState stF hcf
        (by simp [initCombineState]) entry hentry
    have hpos' : 0 < entry.2.total_appearances := by
      rw [← combinePostProcess_total_appearances individual_analyses entry, hpp]
      exact hpos
    obtain ⟨hc, hs, hp, ha, hl⟩ := combinePostProcess_fields individual_analyses entry hpos'
    have hbrand : m.brand = entry.1 := by
      rw [← hpp, combinePostProcess_brand, hkey]
    rw [hbrand, ← hpp]
    rw [collectScores_eq] at hc hs hp ha hl
    exact ⟨hc, hs, hp, ha, by rw [hl, hs]⟩

/-- Witness for C4 at the concrete two-video merge. -/
theorem merge_recomputes_scores_as_means_witness :
    ((combinedMetricsOf (combine_video_analyses
        [sampleAnalysis "v1" sampleAppearance, sampleAnalysis "v2" sampleAppearanceB]
        ["v1", "v2"])).getD 0 (initCombinedMetric "") ∈
      combinedMetricsOf (combine_video_analyses
        [sampleAnalysis "v1" sampleAppearance, sampleAnalysis "v2" sampleAppearanceB]
        ["v1", "v2"])) ∧
    0 < ((combinedMetricsOf (combine_video_analyses
        [sampleAnalysis "v1" sampleAppearance, sampleAnalysis "v2" sampleAppearanceB]
        ["v1", "v2"])).getD 0 (initCombinedMetric "")).total_appearances ∧
    ((combinedMetricsOf (combine_video_analyses
        [sampleAnalysis "v1" sampleAppearance, sampleAnalysis "v2" sampleAppearanceB]
        ["v1", "v2"])).getD 0 (initCombinedMetric "")).sentiment_label =
      some (sentimentLabelOf ((combinedMetricsOf (combine_video_analyses
        [sampleAnalysis "v1" sampleAppearance, sampleAnalysis "v2" sampleAppearanceB]
        ["v1", "v2"])).getD 0 (initCombinedMetric "")).sentiment_score) := by
  have hne : combinedMetricsOf (combine_video_analyses
      [sampleAnalysis "v1" sampleAppearance, sampleAnalysis "v2" sampleAppearanceB]
      ["v1", "v2"]) ≠ [] := by
    intro h0
    have := congrArg List.length h0
    rw [show (combinedMetricsOf (combine_video_analyses
        [sampleAnalysis "v1" sampleAppearance, sampleAnalysis "v2" sampleAppearanceB]
        ["v1", "v2"])).length = 1 by
      norm_num [combine_video_analyses, combineFold, combineStep, combineMetricsFold,
        combineMetricStep, offsetAppearances, initCombineState, cmUpsert,
        mergeMetricInto, initCombinedMetric, offsetAppearance, combinePostProcess,
        collectScores, listMean, sentimentLabelOf, ctxUnion, combinedMetricsOf,
        sampleAnalysis, sampleMetric, sampleAppearance, sampleAppearanceB]] at this
    simp at this
  have hmem := getD_zero_mem _ (initCombinedMetric "") hne
  have hpos : 0 < ((combinedMetricsOf (combine_video_analyses
      [sampleAnalysis "v1" sampleAppearance, sampleAnalysis "v2" sampleAppearanceB]
      ["v1", "v2"])).getD 0 (initCombinedMetric "")).total_appearances := by
    norm_num [combine_video_analyses, combineFold, combineStep, combineMetricsFold,
      combineMetricStep, offsetAppearances, initCombineState, cmUpsert,
      mergeMetricInto, initCombinedMetric, offsetAppearance, combinePostProcess,
      collectScores, listMean, sentimentLabelOf, ctxUnion, combinedMetricsOf,
      sampleAnalysis, sampleMetric, sampleAppearance, sampleAppearanceB, List.getD]
  exact ⟨hmem, hpos,
    (merge_recomputes_scores_as_means
      [sampleAnalysis "v1" sampleAppearance, sampleAnalysis "v2" sampleAppearanceB]
      ["v1", "v2"] _ hmem hpos).2.2.2.2⟩

/-- Witness for the amended C8 at a concrete raw detection list. -/
theorem high_impact_rules_witness :
    ((buildBrandData [minimalAppearance]).getD 0 ("", initBrandData)
        ∈ buildBrandData [minimalAppearance]) ∧
    ((buildBrandData [minimalAppearance]).getD 0 ("", initBrandData)).2.high_impact_moments =
      ((buildBrandData [minimalAppearance]).getD 0 ("", initBrandData)).2.appearances.countP
        asyncHighImpact ∧
    ((buildBrandSummary [minimalAppearance]).getD 0 ("", initBrandSummaryData "")
        ∈ buildBrandSummary [minimalAppearance]) ∧
    ((buildBrandSummary [minimalAppearance]).getD 0
        ("", initBrandSummaryData "")).2.high_impact_moments =
      ((buildBrandSummary [minimalAppearance]).getD 0
        ("", initBrandSummaryData "")).2.appearances.countP
        (fun a => syncHighImpactContexts.contains (a.context.getD "unknown")) :=
  ⟨by decide,
   (high_impact_rules [minimalAppearance]).1 _ (by decide),
   by decide,
   (high_impact_rules [minimalAppearance]).2 _ (by decide)⟩

end BrandROI
